import Mathlib

/-!
Verification of `src/Week1/courseweek1.py`.

The program reads a name from standard input, clears the terminal, computes
the SHA3-256 digest of the UTF-8 encoding of the name, and prints two lines:
the original name and the hex digest, each behind a fixed label.

The embedding below models:
* SHA3-256 (NIST FIPS 202, Keccak-f[1600], rate 1088) over byte lists,
  with the 1600-bit permutation state packed into a single `Nat`
  (lane (x, y) occupies bits 64*(x+5*y) .. 64*(x+5*y)+63);
* Python `str.encode()` as standard UTF-8 encoding of the code points;
* `hexdigest()` as lowercase hex rendering;
* the straight-line module body as a trace of effects.
-/

/-- Mask of 64 one bits. -/
def mask64 : Nat := 2 ^ 64 - 1

/-- Rotate a 64-bit lane left by `n` bits (0 ≤ n < 64). -/
def rotl (l n : Nat) : Nat := ((l <<< n) &&& mask64) ||| (l >>> (64 - n))

/-- Extract lane `i` (flat index x + 5*y) from the packed 1600-bit state. -/
def lane (st i : Nat) : Nat := (st >>> (64 * i)) &&& mask64

/-- Repack 25 lanes given by `f` into a single `Nat` state. -/
def packLanes (f : Nat → Nat) : Nat :=
  (List.range 25).foldl (fun acc i => acc ||| (f i <<< (64 * i))) 0

/-- Keccak θ step. -/
def theta (st : Nat) : Nat :=
  let C := fun x =>
    lane st x ^^^ lane st (x + 5) ^^^ lane st (x + 10) ^^^
      lane st (x + 15) ^^^ lane st (x + 20)
  let D := fun x => C ((x + 4) % 5) ^^^ rotl (C ((x + 1) % 5)) 1
  packLanes (fun i => lane st i ^^^ D (i % 5))

/-- Keccak ρ rotation offset of the lane with flat index x + 5*y. -/
def rotationOffset : Nat → Nat
  | 0 => 0
  | 1 => 1
  | 2 => 62
  | 3 => 28
  | 4 => 27
  | 5 => 36
  | 6 => 44
  | 7 => 6
  | 8 => 55
  | 9 => 20
  | 10 => 3
  | 11 => 10
  | 12 => 43
  | 13 => 25
  | 14 => 39
  | 15 => 41
  | 16 => 45
  | 17 => 15
  | 18 => 21
  | 19 => 8
  | 20 => 18
  | 21 => 2
  | 22 => 61
  | 23 => 56
  | 24 => 14
  | _ => 0

/-- Keccak ρ and π steps combined: output lane (x, y) is the rotated
input lane ((x + 3y) mod 5, x). -/
def rhoPi (st : Nat) : Nat :=
  packLanes (fun i =>
    let x := i % 5
    let y := i / 5
    let j := (x + 3 * y) % 5 + 5 * x
    rotl (lane st j) (rotationOffset j))

/-- Keccak χ step. -/
def chi (st : Nat) : Nat :=
  packLanes (fun i =>
    let x := i % 5
    let y := i / 5
    lane st i ^^^
      ((lane st ((x + 1) % 5 + 5 * y) ^^^ mask64) &&& lane st ((x + 2) % 5 + 5 * y)))

/-- Keccak ι round constants for the 24 rounds of Keccak-f[1600],
written in decimal. -/
def iotaConstants : List Nat :=
  [1, 32898, 9223372036854808714,
   9223372039002292224, 32907, 2147483649,
   9223372039002292353, 9223372036854808585, 138,
   136, 2147516425, 2147483658,
   2147516555, 9223372036854775947, 9223372036854808713,
   9223372036854808579, 9223372036854808578, 9223372036854775936,
   32778, 9223372039002259466, 9223372039002292353,
   9223372036854808704, 2147483649, 9223372039002292232]

/-- The Keccak-f[1600] permutation: 24 rounds of θ, ρ, π, χ, ι
(ι xors the round constant into lane (0, 0), the low 64 bits). -/
def keccakF (st : Nat) : Nat :=
  iotaConstants.foldl (fun s rc => chi (rhoPi (theta s)) ^^^ rc) st

/-- Interpret a byte list as a natural number, little-endian
(first byte is least significant).  This matches the FIPS 202 bit
ordering of the rate portion of the state: byte k of a block lands in
bits 8k..8k+7, i.e. byte 8*i + m is byte m of lane i. -/
def bytesToNat : List Nat → Nat
  | [] => 0
  | b :: bs => b + 256 * bytesToNat bs

/-- SHA3 pad10*1 padding with domain suffix 01 (byte 0x06), to a multiple
of the rate, 136 bytes; the final padding bit is the top bit 0x80 of the
last byte (a single byte 0x86 when only one padding byte fits). -/
def sha3Pad (msg : List Nat) : List Nat :=
  let q := 136 - msg.length % 136
  if q = 1 then msg ++ [0x86]
  else msg ++ 0x06 :: (List.replicate (q - 2) 0 ++ [0x80])

/-- Absorb `n` rate-sized blocks of the padded message into the state. -/
def absorbBlocks : Nat → Nat → List Nat → Nat
  | 0, st, _ => st
  | n + 1, st, p => absorbBlocks n (keccakF (st ^^^ bytesToNat (p.take 136))) (p.drop 136)

/-- SHA3-256 of a byte list: pad, absorb all blocks, then squeeze the
first 32 bytes of the state (the digest fits in one squeeze). -/
def sha3_256 (msg : List Nat) : List Nat :=
  let p := sha3Pad msg
  let st := absorbBlocks (p.length / 136) 0 p
  (List.range 32).map (fun k => (st >>> (8 * k)) &&& 255)

/-- UTF-8 encoding of a single Unicode code point. -/
def utf8EncodeChar (c : Nat) : List Nat :=
  if c < 0x80 then [c]
  else if c < 0x800 then
    [0xC0 ||| (c >>> 6), 0x80 ||| (c &&& 0x3F)]
  else if c < 0x10000 then
    [0xE0 ||| (c >>> 12), 0x80 ||| ((c >>> 6) &&& 0x3F), 0x80 ||| (c &&& 0x3F)]
  else
    [0xF0 ||| (c >>> 18), 0x80 ||| ((c >>> 12) &&& 0x3F),
     0x80 ||| ((c >>> 6) &&& 0x3F), 0x80 ||| (c &&& 0x3F)]

/-- Python `str.encode()`: UTF-8 encoding of the string's code points. -/
def utf8Encode (s : String) : List Nat :=
  s.data.flatMap (fun c => utf8EncodeChar c.toNat)

/-- Lowercase hex digit for a value below 16. -/
def hexChar (n : Nat) : Char :=
  if n < 10 then Char.ofNat (48 + n) else Char.ofNat (87 + n)

/-- Python `.hexdigest()`: the digest bytes rendered as lowercase hex,
two characters per byte, high nibble first. -/
def hexdigest (bytes : List Nat) : String :=
  String.mk (bytes.flatMap (fun b => [hexChar (b / 16), hexChar (b % 16)]))

set_option maxRecDepth 8000

/-- Keccak-f round 1 of the empty-input computation, on explicit states. -/
theorem keccakEmptyRound1 :
    chi (rhoPi (theta 0x80000000000000000000000000000000000000000000000000000000000000000000000000000000000000000000000000000000000000000000000000000000000000000000000000000000000000000000000000000000000000000000000000000000000000000000000000000000000000000000000000000000000000000000000000000006)) ^^^ 0x1 =
      0x1820000200000000000000060000000018000000000000000020000600000000000000001000000000000000006000400000000000000018000000001000004000000000006000180000000000000400200000000000000c0c00000000000400000000000000000c20000000000000000c1000000000c000000000d0000000000010000000000000080000d00000c00000000000000000000800006000000300000000000000000007000004000003000000006000000000000000040000000006 := by
  decide

/-- Keccak-f round 2 of the empty-input computation, on explicit states. -/
theorem keccakEmptyRound2 :
    chi (rhoPi (theta 0x1820000200000000000000060000000018000000000000000020000600000000000000001000000000000000006000400000000000000018000000001000004000000000006000180000000000000400200000000000000c0c00000000000400000000000000000c20000000000000000c1000000000c000000000d0000000000010000000000000080000d00000c00000000000000000000800006000000300000000000000000007000004000003000000006000000000000000040000000006)) ^^^ 0x8082 =
      0x201818088038a0081f00b424320035c7023e1fb180538058bd18e0091200a40e922653b4305bf55d706984c120118b188f087b403d1b24a060080100389081189e79e761461b230005001b6043800db01885052e51c1cf9400d6d8a080601f2058031736b9e0c180009104b0302901f44002de08085c5044a8022e4398ef1a88cd1cd18463c20823800823c21224d1242d0e4c07c0350c0c801890067908cf82d70208001325de00440d351b0c4400661721ba001ba15e06a28e212b096606141420963001c798fe := by
  decide

/-- Keccak-f round 3 of the empty-input computation, on explicit states. -/
theorem keccakEmptyRound3 :
    chi (rhoPi (theta 0x201818088038a0081f00b424320035c7023e1fb180538058bd18e0091200a40e922653b4305bf55d706984c120118b188f087b403d1b24a060080100389081189e79e761461b230005001b6043800db01885052e51c1cf9400d6d8a080601f2058031736b9e0c180009104b0302901f44002de08085c5044a8022e4398ef1a88cd1cd18463c20823800823c21224d1242d0e4c07c0350c0c801890067908cf82d70208001325de00440d351b0c4400661721ba001ba15e06a28e212b096606141420963001c798fe)) ^^^ 0x800000000000808a =
      0x5c7131ab00121079e06a7ec4f53efd46c60e1f63b9ead0e3ece7140b44df9a07302b86d064eef760bdc8d1d99946e21b8683a221c2fe7b37eb8f15d29c87106e9abfcebbf0b74b243fea493d474736964f4c82a2bb43c44eaf456ed279f6b8ee1a590408b785026f7cecaa99e7a6c007754626b626c4ca61537fbaf86f997259c46250ea0a86a7236b2dc03d10f24c7d4c85f8fcb8035dcd5f3a62f88d878d81b660da9788a873fbc0ac1b4d4a4f3fb6e80af6af70dbaee21771ca42b4c66c33333ec040611fa335 := by
  decide

/-- Keccak-f round 4 of the empty-input computation, on explicit states. -/
theorem keccakEmptyRound4 :
    chi (rhoPi (theta 0x5c7131ab00121079e06a7ec4f53efd46c60e1f63b9ead0e3ece7140b44df9a07302b86d064eef760bdc8d1d99946e21b8683a221c2fe7b37eb8f15d29c87106e9abfcebbf0b74b243fea493d474736964f4c82a2bb43c44eaf456ed279f6b8ee1a590408b785026f7cecaa99e7a6c007754626b626c4ca61537fbaf86f997259c46250ea0a86a7236b2dc03d10f24c7d4c85f8fcb8035dcd5f3a62f88d878d81b660da9788a873fbc0ac1b4d4a4f3fb6e80af6af70dbaee21771ca42b4c66c33333ec040611fa335)) ^^^ 0x8000000080008000 =
      0x6f789acdf193fa0aee0218af0d9558f92b7ca707b654ddb5e5f2fc1edeb005bc42e7d0870ccd8a884e915241d583e1ab521e4385946094016385b7ed461a5fbc7b4df3abdd4ed69e06ade8f9b8210da62f007f6a85e3492c7ca60ec1230e458f0d0286d51b79fca78aa16a94c18e2ff0d41b76866f72c3d1c9627d1a1e20d61917d39ebd3eb9dff8614568786ee7e2d94e61bc49f15b2cbd3228263f709cb021567e276f7b1d654566b70ef68af625199a3d378f90a4b5af27031b5f86648b57d2204351fba621a7 := by
  decide

/-- Keccak-f round 5 of the empty-input computation, on explicit states. -/
theorem keccakEmptyRound5 :
    chi (rhoPi (theta 0x6f789acdf193fa0aee0218af0d9558f92b7ca707b654ddb5e5f2fc1edeb005bc42e7d0870ccd8a884e915241d583e1ab521e4385946094016385b7ed461a5fbc7b4df3abdd4ed69e06ade8f9b8210da62f007f6a85e3492c7ca60ec1230e458f0d0286d51b79fca78aa16a94c18e2ff0d41b76866f72c3d1c9627d1a1e20d61917d39ebd3eb9dff8614568786ee7e2d94e61bc49f15b2cbd3228263f709cb021567e276f7b1d654566b70ef68af625199a3d378f90a4b5af27031b5f86648b57d2204351fba621a7)) ^^^ 0x808b =
      0xe2715022b2a325c3e3ba01474f02c8000f49341fa686f6c62171570668512032af373f871806116b623b120ed2d514a263c972fff9fc3faf7f7842ef0aa5a20feccb4d156314e09d0da7070b009897ad44ee8b3774a307afedd189faf668d70f5d51cd5ae947bc98418843d1a62ff01848cccabdb190171e6ebdbcced38e6c1adb4a8ef245442521fc0dcada0b9eeb91fb6919d097b8948e91f11ef027b9d2c04093038928db0734946d390b9a7d9ec8f015d60e1eff149f77e75512314412f1392caa215bcff387 := by
  decide

/-- Keccak-f round 6 of the empty-input computation, on explicit states. -/
theorem keccakEmptyRound6 :
    chi (rhoPi (theta 0xe2715022b2a325c3e3ba01474f02c8000f49341fa686f6c62171570668512032af373f871806116b623b120ed2d514a263c972fff9fc3faf7f7842ef0aa5a20feccb4d156314e09d0da7070b009897ad44ee8b3774a307afedd189faf668d70f5d51cd5ae947bc98418843d1a62ff01848cccabdb190171e6ebdbcced38e6c1adb4a8ef245442521fc0dcada0b9eeb91fb6919d097b8948e91f11ef027b9d2c04093038928db0734946d390b9a7d9ec8f015d60e1eff149f77e75512314412f1392caa215bcff387)) ^^^ 0x80000001 =
      0x16927d08e4eef888022739daa0b7aac17afea851e0adf6acde9680ee90f729944d00ba0f6e8d2311ff15d64f20c40fa466a436960e123d7c793cf705f578e707f70e2335a03632ad98cd3ba24ab0631d8fbe83efd1fff15bdcd24cf783eedd6579df58ff26327994ead10f4f5c1676afff0c6aacaa4c10a083579b4512956e508fd79db70ca133e019fcd5425ba1f7660d4d659c46dc932fd1e711276f213f7c8436287f67f11d7575c60932e6303625f1f6300a2bd46fb4a6a23081d53e5e2f839af63b0963e336 := by
  decide

/-- Keccak-f round 7 of the empty-input computation, on explicit states. -/
theorem keccakEmptyRound7 :
    chi (rhoPi (theta 0x16927d08e4eef888022739daa0b7aac17afea851e0adf6acde9680ee90f729944d00ba0f6e8d2311ff15d64f20c40fa466a436960e123d7c793cf705f578e707f70e2335a03632ad98cd3ba24ab0631d8fbe83efd1fff15bdcd24cf783eedd6579df58ff26327994ead10f4f5c1676afff0c6aacaa4c10a083579b4512956e508fd79db70ca133e019fcd5425ba1f7660d4d659c46dc932fd1e711276f213f7c8436287f67f11d7575c60932e6303625f1f6300a2bd46fb4a6a23081d53e5e2f839af63b0963e336)) ^^^ 0x8000000080008081 =
      0xd89e84d7d7873a36d3ce9f79b0f603e82942e5980c2765650043bae588c72a1c26641ce5d5f50125846211ce0325cff483f8a0edcc4dfa86031851cc114c4fe9cfd03216f3b61a6bd388229521f037ab48bbcc56d59de4cf995978965919776c2220bcc65dbe69217bf9efbbe87366f1f461e2b16558ef2712db6ff5ba049b304ff61571fd0fdd2b68c13beda6b126f247325691915fdff16e8403aee6f62dcd20e35dd183d249fe793d1e6ef28f565c1ebba43fc9687397cfe13d5dcc42f2d4a3975e1817815fe8 := by
  decide

/-- Keccak-f round 8 of the empty-input computation, on explicit states. -/
theorem keccakEmptyRound8 :
    chi (rhoPi (theta 0xd89e84d7d7873a36d3ce9f79b0f603e82942e5980c2765650043bae588c72a1c26641ce5d5f50125846211ce0325cff483f8a0edcc4dfa86031851cc114c4fe9cfd03216f3b61a6bd388229521f037ab48bbcc56d59de4cf995978965919776c2220bcc65dbe69217bf9efbbe87366f1f461e2b16558ef2712db6ff5ba049b304ff61571fd0fdd2b68c13beda6b126f247325691915fdff16e8403aee6f62dcd20e35dd183d249fe793d1e6ef28f565c1ebba43fc9687397cfe13d5dcc42f2d4a3975e1817815fe8)) ^^^ 0x8000000000008009 =
      0xc3dc5440f8c798007a04d5390ea9afbd742b51d5c017429f38ba8822797145263213ddb554ccd22e86f1a4dde76a25d6f3b54d8b8f41307d9d41030d672dbcaf40a9d00180c75c948a4d0b84953371b0ba1f1402cc94e38fbfbf1cbc72fd90f2000f4dccc1572b77377be4ee281d7e2afef92c55a1a2e9c1ad766d28438cc285910fffb8d78c0cca7734869a0c3d5f1090ef7e5d66476482c1c58cf32c84aceaf38ddc7c5696af132360724fd85660b0f84a423e8b43493ed2aec73baf824a3654db247eb3176f6d := by
  decide

/-- Keccak-f round 9 of the empty-input computation, on explicit states. -/
theorem keccakEmptyRound9 :
    chi (rhoPi (theta 0xc3dc5440f8c798007a04d5390ea9afbd742b51d5c017429f38ba8822797145263213ddb554ccd22e86f1a4dde76a25d6f3b54d8b8f41307d9d41030d672dbcaf40a9d00180c75c948a4d0b84953371b0ba1f1402cc94e38fbfbf1cbc72fd90f2000f4dccc1572b77377be4ee281d7e2afef92c55a1a2e9c1ad766d28438cc285910fffb8d78c0cca7734869a0c3d5f1090ef7e5d66476482c1c58cf32c84aceaf38ddc7c5696af132360724fd85660b0f84a423e8b43493ed2aec73baf824a3654db247eb3176f6d)) ^^^ 0x8a =
      0x9cc3b4ef573024e4fa880f732426e3c7e7180bc4941d1c5706fa0764e77f4e541e69ed119aace1834e4f5ca5bf0af866ba0ae134d90d4fd5955094d6d7a630a9ad1a94ffade46ab9e2ab2eff068473802906b8559dc607267048b2c61845a7fc3a9d5861cf966cdb77e4973f433528789a5b05272cd6cef85e1c095aa3bc9ffc4b33ffe0a6f337a72f1b9653bae68ab2d044444f63d9d359a043ae44f84c9084fea23ef1622b6933b4dc029094ba414f7724ec4a48d8993566208a66889f1338f6462aea67a86e75 := by
  decide

/-- Keccak-f round 10 of the empty-input computation, on explicit states. -/
theorem keccakEmptyRound10 :
    chi (rhoPi (theta 0x9cc3b4ef573024e4fa880f732426e3c7e7180bc4941d1c5706fa0764e77f4e541e69ed119aace1834e4f5ca5bf0af866ba0ae134d90d4fd5955094d6d7a630a9ad1a94ffade46ab9e2ab2eff068473802906b8559dc607267048b2c61845a7fc3a9d5861cf966cdb77e4973f433528789a5b05272cd6cef85e1c095aa3bc9ffc4b33ffe0a6f337a72f1b9653bae68ab2d044444f63d9d359a043ae44f84c9084fea23ef1622b6933b4dc029094ba414f7724ec4a48d8993566208a66889f1338f6462aea67a86e75)) ^^^ 0x88 =
      0x17f8ffda21cd3c645d8d06dbbdaa237d685fe347cdcbb90a7c76dc5ec1e81bfb22cadb480d190ff33b7e0a0f8152e5cacadd8d0009ad28a987be303d54a61ad897220df2f86dee9d57c5f8810e15e9dc7eff260c542b5462d279db94bb855c6ca69f251455af97919c67555f986f7296eccb65aab6c6a9ed04367a3d15dd654735ff7308d5a90dd36f77bc17e175b3dcc6dae9627a670c111102e083302534c1a034139846b08dbf3f7a314dc421c35202d510f5b5d470bc3949951897ec4a0cfb23da203612ee6f := by
  decide

/-- Keccak-f round 11 of the empty-input computation, on explicit states. -/
theorem keccakEmptyRound11 :
    chi (rhoPi (theta 0x17f8ffda21cd3c645d8d06dbbdaa237d685fe347cdcbb90a7c76dc5ec1e81bfb22cadb480d190ff33b7e0a0f8152e5cacadd8d0009ad28a987be303d54a61ad897220df2f86dee9d57c5f8810e15e9dc7eff260c542b5462d279db94bb855c6ca69f251455af97919c67555f986f7296eccb65aab6c6a9ed04367a3d15dd654735ff7308d5a90dd36f77bc17e175b3dcc6dae9627a670c111102e083302534c1a034139846b08dbf3f7a314dc421c35202d510f5b5d470bc3949951897ec4a0cfb23da203612ee6f)) ^^^ 0x80008009 =
      0x1018de3985c89f55db5d4663cf47feeaedd3d1f74ceec2935ef2cc2e0d802078644a72db710ee34e55908425ade2530efe3a1bbb24a34ce3ebf7bc6dde6ec184e7fd20ef430bb6f391f811f2e466d7c86148ca2be42307501ec1b578aada4b9f82c0e0c54815b1ab3bf9269ce3121acec62831c02588c76db5b427f737bd2d5af2bdfdaf70c57fcb52c9747449d0f800bb504346da6fc263c5b63bc18bf529e34676788f51e2d8f276b24ec2b4685ed45a2465863c4d680df3e835c8f22ba9451419d14d84ccc8a3 := by
  decide

/-- Keccak-f round 12 of the empty-input computation, on explicit states. -/
theorem keccakEmptyRound12 :
    chi (rhoPi (theta 0x1018de3985c89f55db5d4663cf47feeaedd3d1f74ceec2935ef2cc2e0d802078644a72db710ee34e55908425ade2530efe3a1bbb24a34ce3ebf7bc6dde6ec184e7fd20ef430bb6f391f811f2e466d7c86148ca2be42307501ec1b578aada4b9f82c0e0c54815b1ab3bf9269ce3121acec62831c02588c76db5b427f737bd2d5af2bdfdaf70c57fcb52c9747449d0f800bb504346da6fc263c5b63bc18bf529e34676788f51e2d8f276b24ec2b4685ed45a2465863c4d680df3e835c8f22ba9451419d14d84ccc8a3)) ^^^ 0x8000000a =
      0x9771740ff365eec27ec15214c3c63596806d634e75515ccf08ea405f44cb90907adb1cb3ad9dc990bc78d1145324b3a39a94a0636b332f697af7d90f7d30db87208db8386052f6e2134c192a6cc9ab99f48dc59d84829f7651bf0b37e0ebb02694e2bca0de79943fb752cc66cb2ddc39133d59e43795fe5ca019e29af04691bc58c363bb7133501b0ea4a100ab693ac89f1f9b765c5ee370245ce012066afcc395174fe810a459ce73bbc0e747baa6c2f37ac6a6ff5c3603695b94576c84037a41a22e0d267954c8 := by
  decide

/-- Keccak-f round 13 of the empty-input computation, on explicit states. -/
theorem keccakEmptyRound13 :
    chi (rhoPi (theta 0x9771740ff365eec27ec15214c3c63596806d634e75515ccf08ea405f44cb90907adb1cb3ad9dc990bc78d1145324b3a39a94a0636b332f697af7d90f7d30db87208db8386052f6e2134c192a6cc9ab99f48dc59d84829f7651bf0b37e0ebb02694e2bca0de79943fb752cc66cb2ddc39133d59e43795fe5ca019e29af04691bc58c363bb7133501b0ea4a100ab693ac89f1f9b765c5ee370245ce012066afcc395174fe810a459ce73bbc0e747baa6c2f37ac6a6ff5c3603695b94576c84037a41a22e0d267954c8)) ^^^ 0x8000808b =
      0xd5cc6aca51b6e4f140296c73ef042f2c5b15e7a24b57e2fb962520188abdb229a11b174de6073512a05872a8f88d3348250f26fb1dc3d7d0ea427c6635545213c87da1d9cbe63f37ac1eb74d85b1218180535b83dfbb28ca612b4df437870f2cafc519776a761921fc6142a25ff7240aa1138021dc10095bbaa5388acae237d85be0e143ac0a367ffaa80e0229a20459c122964ac418b02b8e505a5b7812867484b0e25596a69d1220e63e2ccbdbe6c649a27e148d99cef17e897bf07efbb8e7f8f811bd5d802da4 := by
  decide

/-- Keccak-f round 14 of the empty-input computation, on explicit states. -/
theorem keccakEmptyRound14 :
    chi (rhoPi (theta 0xd5cc6aca51b6e4f140296c73ef042f2c5b15e7a24b57e2fb962520188abdb229a11b174de6073512a05872a8f88d3348250f26fb1dc3d7d0ea427c6635545213c87da1d9cbe63f37ac1eb74d85b1218180535b83dfbb28ca612b4df437870f2cafc519776a761921fc6142a25ff7240aa1138021dc10095bbaa5388acae237d85be0e143ac0a367ffaa80e0229a20459c122964ac418b02b8e505a5b7812867484b0e25596a69d1220e63e2ccbdbe6c649a27e148d99cef17e897bf07efbb8e7f8f811bd5d802da4)) ^^^ 0x800000000000008b =
      0x4a9abcd18457edc9746e5093cbcf81f9ab316365123a05a462fefe080de166346b88f91f893701fe9ae315e9020302e6b14c880e8ef8b9ebb502ae355d5107f3e4d547df68e56d6153224eb247643ff84e620472bf3503319f70dee775fa80221ba6829ef4b36a8f6f3d0b5232b2c4a6ee8d6a7544a3b96116160e291d4541be891c59fa05421868b9282364625dbb0431b049bdcda5090adcebf6ad73f54d7fdd54b1d96bee07acc4554483ec52de5dc6b1eb3207944dfa0c41048b29cfc1ef5bbe8f503beb3736 := by
  decide

/-- Keccak-f round 15 of the empty-input computation, on explicit states. -/
theorem keccakEmptyRound15 :
    chi (rhoPi (theta 0x4a9abcd18457edc9746e5093cbcf81f9ab316365123a05a462fefe080de166346b88f91f893701fe9ae315e9020302e6b14c880e8ef8b9ebb502ae355d5107f3e4d547df68e56d6153224eb247643ff84e620472bf3503319f70dee775fa80221ba6829ef4b36a8f6f3d0b5232b2c4a6ee8d6a7544a3b96116160e291d4541be891c59fa05421868b9282364625dbb0431b049bdcda5090adcebf6ad73f54d7fdd54b1d96bee07acc4554483ec52de5dc6b1eb3207944dfa0c41048b29cfc1ef5bbe8f503beb3736)) ^^^ 0x8000000000008089 =
      0x3e71852dc6b0df1bac3fbbdf680afe7e8883f05d4a9b9c700e18d27faa6621e71fdb2ca1c5f531a9f7e451127b1aeb4abbdb8a967e32b3fd1ea54951fd9f5b2b193e336805b113c5cb3e7c0e5343573cff20251697ae5a781d13fb762b86be2c5460f894ace7dca8f77cb5528dd02517525517ba9e0b99f30e3c01426c7b9f56e5410833cc9d42e59ae0280b44ca7712d3145468c76b3e40fa15484511ce7e663360ff55764637f9d851ef067b35be438f2a8f1a3a19563edcd7e9c9fe8eb3770720748f13c8571e := by
  decide

/-- Keccak-f round 16 of the empty-input computation, on explicit states. -/
theorem keccakEmptyRound16 :
    chi (rhoPi (theta 0x3e71852dc6b0df1bac3fbbdf680afe7e8883f05d4a9b9c700e18d27faa6621e71fdb2ca1c5f531a9f7e451127b1aeb4abbdb8a967e32b3fd1ea54951fd9f5b2b193e336805b113c5cb3e7c0e5343573cff20251697ae5a781d13fb762b86be2c5460f894ace7dca8f77cb5528dd02517525517ba9e0b99f30e3c01426c7b9f56e5410833cc9d42e59ae0280b44ca7712d3145468c76b3e40fa15484511ce7e663360ff55764637f9d851ef067b35be438f2a8f1a3a19563edcd7e9c9fe8eb3770720748f13c8571e)) ^^^ 0x8000000000008003 =
      0x7211120988f6026bfe85330d8c40042967ec265fc449d8168311d7d86a64cfd3e7336f3d49eee48fcd4ca313a20c4b597f51658caa0def5f00227d772e7ad88f1e78ce5a2d7c4c418f4f0d82659ef9a16c3f48b58dbfec05190b10ec0b487e9fc6098210fb199a07a464da76c17ca5b6128fbe0942283bad891299574e96af0c60e9f93c51b4e8de356c5a2547b15884fd6fb033d6384d3437f72add0803e3ff1fe24674d501efc58c77c62985fb70b65945d6f5e05ba2180df438788bae00dd11fb6ef82465089e := by
  decide

/-- Keccak-f round 17 of the empty-input computation, on explicit states. -/
theorem keccakEmptyRound17 :
    chi (rhoPi (theta 0x7211120988f6026bfe85330d8c40042967ec265fc449d8168311d7d86a64cfd3e7336f3d49eee48fcd4ca313a20c4b597f51658caa0def5f00227d772e7ad88f1e78ce5a2d7c4c418f4f0d82659ef9a16c3f48b58dbfec05190b10ec0b487e9fc6098210fb199a07a464da76c17ca5b6128fbe0942283bad891299574e96af0c60e9f93c51b4e8de356c5a2547b15884fd6fb033d6384d3437f72add0803e3ff1fe24674d501efc58c77c62985fb70b65945d6f5e05ba2180df438788bae00dd11fb6ef82465089e)) ^^^ 0x8000000000008002 =
      0x10c89279136b00d19f83c135037c97f944753218d4837df881919953c537eaa49a387beef2cf61edf5a44709ed4a3727625d334a56b0d0cb8a049f9aa3e260a9534519aa4099a2fa59e171dd0cb2a574712bc3e9ee62c6b7766f59cb3bdd04403098598a829f4027dc5bde8e8c8a0ec5b42e17550a159a6528cd01e12db1f71bdc14373fffa908bc01437f1648f4bb4558a7ba3aa3974ad5b5a1a870c4cbd9eff69dddd4252faaebaeccaf031e77237faf47174888d27a1364859ba4dc121ef4dc179b138e9b5afa := by
  decide

/-- Keccak-f round 18 of the empty-input computation, on explicit states. -/
theorem keccakEmptyRound18 :
    chi (rhoPi (theta 0x10c89279136b00d19f83c135037c97f944753218d4837df881919953c537eaa49a387beef2cf61edf5a44709ed4a3727625d334a56b0d0cb8a049f9aa3e260a9534519aa4099a2fa59e171dd0cb2a574712bc3e9ee62c6b7766f59cb3bdd04403098598a829f4027dc5bde8e8c8a0ec5b42e17550a159a6528cd01e12db1f71bdc14373fffa908bc01437f1648f4bb4558a7ba3aa3974ad5b5a1a870c4cbd9eff69dddd4252faaebaeccaf031e77237faf47174888d27a1364859ba4dc121ef4dc179b138e9b5afa)) ^^^ 0x8000000000000080 =
      0x9c2e57fb427cbd30599962e9608a05b04e2cf75a62260d0aef5d6bba0074a7969bcc83ac58797e7aba1a41e995475f33c715ef6a912085bd3f6a9de425aaabcdd5d462a37ed9d4d3bc94168840bf949e7340fcc3c06ad4d5cb178806e7f1661aba3f68c30567cb640a197994825e232036591e181616ae3a168de5cc16b987c2c9ca77b821e01a82eb18111bea471840e6cf8c72462eb0c4c8b15f6e6ef0e760f7dbf827f4259108488a5c2aba3491d0b36b57927ec3b355a277c6135bfd77c377529fe95b0653a3 := by
  decide

/-- Keccak-f round 19 of the empty-input computation, on explicit states. -/
theorem keccakEmptyRound19 :
    chi (rhoPi (theta 0x9c2e57fb427cbd30599962e9608a05b04e2cf75a62260d0aef5d6bba0074a7969bcc83ac58797e7aba1a41e995475f33c715ef6a912085bd3f6a9de425aaabcdd5d462a37ed9d4d3bc94168840bf949e7340fcc3c06ad4d5cb178806e7f1661aba3f68c30567cb640a197994825e232036591e181616ae3a168de5cc16b987c2c9ca77b821e01a82eb18111bea471840e6cf8c72462eb0c4c8b15f6e6ef0e760f7dbf827f4259108488a5c2aba3491d0b36b57927ec3b355a277c6135bfd77c377529fe95b0653a3)) ^^^ 0x800a =
      0x9aaea508c2b76bd96625c595ec20c2c84ca6f7df3db5f80c25894aee5c860c2ccb99d945421faebeb82255c02454a7567dcec7e9e0b07172bccf085695344c8ad6de7c012e3fe9a5185e38b522b62000a5a049d1c4de74f155fa886c9dd24c350fb13e506869a28da1d5762a9bc7277f5b220142b828856630f494b333c2a8199d3c6ae09c226a46331ef7ca2fd4070bcefedf94fbc3c101a97c313cff2859782f7dec8e1c738548bd758ba006cfd37b8eb64f72806003fe4d9ad663f2e5851dab043416649adf93 := by
  decide

/-- Keccak-f round 20 of the empty-input computation, on explicit states. -/
theorem keccakEmptyRound20 :
    chi (rhoPi (theta 0x9aaea508c2b76bd96625c595ec20c2c84ca6f7df3db5f80c25894aee5c860c2ccb99d945421faebeb82255c02454a7567dcec7e9e0b07172bccf085695344c8ad6de7c012e3fe9a5185e38b522b62000a5a049d1c4de74f155fa886c9dd24c350fb13e506869a28da1d5762a9bc7277f5b220142b828856630f494b333c2a8199d3c6ae09c226a46331ef7ca2fd4070bcefedf94fbc3c101a97c313cff2859782f7dec8e1c738548bd758ba006cfd37b8eb64f72806003fe4d9ad663f2e5851dab043416649adf93)) ^^^ 0x800000008000000a =
      0xfcd67513e412a22d1759f46e771ee9cf239410fe61d4caa46796e7c8eaf712f2a8f8241f1cd94a1868451e1fbdce606adf6af1d961a2cac98190ce3fae26e78c6b3e292920d63f93f40c1edcf888324b3802288cf910e389c63822db9a379be7a3d132e9694dc2e6d23e9636a031204e8e0eaabbd690d904002d4d0bf95666031f2df9a069cbf77e4248941238bce4e3c51eabab0987ab679568bead0ccca38847ca9bd7d9cb98770837faa91a4599af3c001941f88c34ab068e6aa03eed2c60692d774028a557f8 := by
  decide

/-- Keccak-f round 21 of the empty-input computation, on explicit states. -/
theorem keccakEmptyRound21 :
    chi (rhoPi (theta 0xfcd67513e412a22d1759f46e771ee9cf239410fe61d4caa46796e7c8eaf712f2a8f8241f1cd94a1868451e1fbdce606adf6af1d961a2cac98190ce3fae26e78c6b3e292920d63f93f40c1edcf888324b3802288cf910e389c63822db9a379be7a3d132e9694dc2e6d23e9636a031204e8e0eaabbd690d904002d4d0bf95666031f2df9a069cbf77e4248941238bce4e3c51eabab0987ab679568bead0ccca38847ca9bd7d9cb98770837faa91a4599af3c001941f88c34ab068e6aa03eed2c60692d774028a557f8)) ^^^ 0x8000000080008081 =
      0xda5ffe64e40450655d73425bfd8b751c22c34b1a36db63f79feb2e99f827e3bbe4cde333902744bc1a3c29bbad31b6facfd4d0aba0ee5f5edc1f7cfa1038b42f65068425a1f3c7c3486da6ea541538685aec9996368944468e9a326e532a1cbd329cbfa62c1f72d05310012f6070aef78effd597c2381c978196381d1d94b9b434f796d7b4491d6e7aa86ad769b437e3a455a531b19d0c21ec6ed35b8a34e84478970dd85698ef0fc32021ed474fd347dfb278771f8fda79185440c1f34c8c25df77e5829e126ec3 := by
  decide

/-- Keccak-f round 22 of the empty-input computation, on explicit states. -/
theorem keccakEmptyRound22 :
    chi (rhoPi (theta 0xda5ffe64e40450655d73425bfd8b751c22c34b1a36db63f79feb2e99f827e3bbe4cde333902744bc1a3c29bbad31b6facfd4d0aba0ee5f5edc1f7cfa1038b42f65068425a1f3c7c3486da6ea541538685aec9996368944468e9a326e532a1cbd329cbfa62c1f72d05310012f6070aef78effd597c2381c978196381d1d94b9b434f796d7b4491d6e7aa86ad769b437e3a455a531b19d0c21ec6ed35b8a34e84478970dd85698ef0fc32021ed474fd347dfb278771f8fda79185440c1f34c8c25df77e5829e126ec3)) ^^^ 0x8000000000008080 =
      0x686bafa0de56e6e518b63857170b493eacf84b418df59e368f4f68fda6d2b6d687d6025726bb40764873a427e5e86cd11ae40a3f2f830d31ce5ae72fcb0c7e8786409bca6503c00c9c7506f787eb9cf911e511bc9300b288fd799774015ee1d0200951fb4061aa937b70df7e3531352eb7c2a735f39d7f1a344d2d0edec7380c3726e6efa2ff8d8b3c5097e81717dd0e2b78285e6e4c8f56212f019117c504c949879b773a68e4ce3cb6a997a50c3966cd46b1c5beb6a1e7d50c1e60226eb7b31f42a34dd8d84f7b := by
  decide

/-- Keccak-f round 23 of the empty-input computation, on explicit states. -/
theorem keccakEmptyRound23 :
    chi (rhoPi (theta 0x686bafa0de56e6e518b63857170b493eacf84b418df59e368f4f68fda6d2b6d687d6025726bb40764873a427e5e86cd11ae40a3f2f830d31ce5ae72fcb0c7e8786409bca6503c00c9c7506f787eb9cf911e511bc9300b288fd799774015ee1d0200951fb4061aa937b70df7e3531352eb7c2a735f39d7f1a344d2d0edec7380c3726e6efa2ff8d8b3c5097e81717dd0e2b78285e6e4c8f56212f019117c504c949879b773a68e4ce3cb6a997a50c3966cd46b1c5beb6a1e7d50c1e60226eb7b31f42a34dd8d84f7b)) ^^^ 0x80000001 =
      0xfce31b35f4008d00ff11cd5aa333875842dbc8e5b7bced4a630a7b22e1cae28dea3f1f1e9c3bbb66ed336cf92b0081f5140407c68730f79b14967be326c27a1ce5496d4741d01641195b73b592cb4ba460e879fd6cce554ed05bd0e0efbd8c98bbcca426cfaf156e0b16053447e1b606d09fd8ba4b94242e1fac00b54f67b4ac88b6e226f5ae16d64e19ec5f5802c2177f3bb61f32a25a2cb92124b5513762b9b159b2f491440cea6a411a3e00cf77d55e0bdeeb25da2c15c0ce6cf4b9e2681e447229eb65555906 := by
  decide

/-- Keccak-f round 24 of the empty-input computation, on explicit states. -/
theorem keccakEmptyRound24 :
    chi (rhoPi (theta 0xfce31b35f4008d00ff11cd5aa333875842dbc8e5b7bced4a630a7b22e1cae28dea3f1f1e9c3bbb66ed336cf92b0081f5140407c68730f79b14967be326c27a1ce5496d4741d01641195b73b592cb4ba460e879fd6cce554ed05bd0e0efbd8c98bbcca426cfaf156e0b16053447e1b606d09fd8ba4b94242e1fac00b54f67b4ac88b6e226f5ae16d64e19ec5f5802c2177f3bb61f32a25a2cb92124b5513762b9b159b2f491440cea6a411a3e00cf77d55e0bdeeb25da2c15c0ce6cf4b9e2681e447229eb65555906)) ^^^ 0x8000000080008008 =
      0x92136e0efb7b70e5857343a7aabdeb5e140b7c92513697792b715c1a078fde5833fc34664d479817913f10903e0bd326d908398b988ec2b263684dd3f055a1b2c2c6b96032faf11e5375f6fb6aa989b0f050e0d2adaf434ed17d1ed2c282b6b8282e7e469e09e75f21684ae301601f33c287a923afe81e7978193aecc1e434e903ac3d19f1e48ecc28debd55fc6a313b80d97b5776b3ba89ff875921cacc9566e2f36b34b7be66524a43f8804b0ad882fa493be44dff80f562d661a05647c15166d71ebff8c6ffa7 := by
  decide

/-- The full Keccak-f[1600] permutation on the initial empty-input state. -/
theorem keccakF_empty :
    keccakF 0x80000000000000000000000000000000000000000000000000000000000000000000000000000000000000000000000000000000000000000000000000000000000000000000000000000000000000000000000000000000000000000000000000000000000000000000000000000000000000000000000000000000000000000000000000000006 =
      0x92136e0efb7b70e5857343a7aabdeb5e140b7c92513697792b715c1a078fde5833fc34664d479817913f10903e0bd326d908398b988ec2b263684dd3f055a1b2c2c6b96032faf11e5375f6fb6aa989b0f050e0d2adaf434ed17d1ed2c282b6b8282e7e469e09e75f21684ae301601f33c287a923afe81e7978193aecc1e434e903ac3d19f1e48ecc28debd55fc6a313b80d97b5776b3ba89ff875921cacc9566e2f36b34b7be66524a43f8804b0ad882fa493be44dff80f562d661a05647c15166d71ebff8c6ffa7 := by
  simp only [keccakF, iotaConstants, List.foldl_cons, List.foldl_nil,
    keccakEmptyRound1, keccakEmptyRound2, keccakEmptyRound3, keccakEmptyRound4, keccakEmptyRound5, keccakEmptyRound6, keccakEmptyRound7, keccakEmptyRound8, keccakEmptyRound9, keccakEmptyRound10, keccakEmptyRound11, keccakEmptyRound12, keccakEmptyRound13, keccakEmptyRound14, keccakEmptyRound15, keccakEmptyRound16, keccakEmptyRound17, keccakEmptyRound18, keccakEmptyRound19, keccakEmptyRound20, keccakEmptyRound21, keccakEmptyRound22, keccakEmptyRound23, keccakEmptyRound24]

/-- Squeezing 32 digest bytes from the final empty-input state. -/
theorem squeeze_empty :
    (List.range 32).map (fun k => (0x92136e0efb7b70e5857343a7aabdeb5e140b7c92513697792b715c1a078fde5833fc34664d479817913f10903e0bd326d908398b988ec2b263684dd3f055a1b2c2c6b96032faf11e5375f6fb6aa989b0f050e0d2adaf434ed17d1ed2c282b6b8282e7e469e09e75f21684ae301601f33c287a923afe81e7978193aecc1e434e903ac3d19f1e48ecc28debd55fc6a313b80d97b5776b3ba89ff875921cacc9566e2f36b34b7be66524a43f8804b0ad882fa493be44dff80f562d661a05647c15166d71ebff8c6ffa7 >>> (8 * k)) &&& 255) =
      [167, 255, 198, 248, 191, 30, 215, 102, 81, 193, 71, 86, 160, 97, 214, 98, 245, 128, 255, 77, 228, 59, 73, 250, 130, 216, 10, 75, 128, 248, 67, 74] := by
  decide

/-- Keccak-f round 1 of the abc-input computation, on explicit states. -/
theorem keccakAbcRound1 :
    chi (rhoPi (theta 0x80000000000000000000000000000000000000000000000000000000000000000000000000000000000000000000000000000000000000000000000000000000000000000000000000000000000000000000000000000000000000000000000000000000000000000000000000000000000000000000000000000000000000000000000006636261)) ^^^ 0x1 =
      0x198d8984200002000000000063626100198d89820000020000000000436261000000000600000010000000000066362610004000000000198d89840000000010000040000066362f9d89840000000000000400200000000cca0606c200000000000000000000000cc6c4c220000000000cc6c4c21000cc6c4c2000006c4c3000000000cc10000000000000086c4cfc6c4c2000c4000000000000000836261331b1308006000000000643626000000731b130800036261000000000660000040006636261 := by
  decide

/-- Keccak-f round 2 of the abc-input computation, on explicit states. -/
theorem keccakAbcRound2 :
    chi (rhoPi (theta 0x198d8984200002000000000063626100198d89820000020000000000436261000000000600000010000000000066362610004000000000198d89840000000010000040000066362f9d89840000000000000400200000000cca0606c200000000000000000000000cc6c4c220000000000cc6c4c21000cc6c4c2000006c4c3000000000cc10000000000000086c4cfc6c4c2000c4000000000000000836261331b1308006000000000643626000000731b130800036261000000000660000040006636261)) ^^^ 0x8082 =
      0x9622744f2c34e7ae939cc5252aa816c808b2babf4445dadfb228f4f473dc074fbc1fb24420d6aa27db1faf3a9bfc1cdb531e1ff2a32f401f8e7cec66172e60176402d9788f313bc720646b0f972e619a0283444033b3c24507ee7f4d95690570f65d81303afc1db48f1bed8e9eb3b5fe57891ecfbac639be553030f0b5716a5f85b37bb2516f6e2887909d2348a64377c9bcc34e00041aae28a443eb0f40bc8be999a2f43a2c2398c0dd85d31cd4a57a5e528c35d5193b13d33adc52cef7f93ab6b325adc633eec4 := by
  decide

/-- Keccak-f round 3 of the abc-input computation, on explicit states. -/
theorem keccakAbcRound3 :
    chi (rhoPi (theta 0x9622744f2c34e7ae939cc5252aa816c808b2babf4445dadfb228f4f473dc074fbc1fb24420d6aa27db1faf3a9bfc1cdb531e1ff2a32f401f8e7cec66172e60176402d9788f313bc720646b0f972e619a0283444033b3c24507ee7f4d95690570f65d81303afc1db48f1bed8e9eb3b5fe57891ecfbac639be553030f0b5716a5f85b37bb2516f6e2887909d2348a64377c9bcc34e00041aae28a443eb0f40bc8be999a2f43a2c2398c0dd85d31cd4a57a5e528c35d5193b13d33adc52cef7f93ab6b325adc633eec4)) ^^^ 0x800000000000808a =
      0xbc3e6565fe186162a7c94aba39779f8e6ebf3510e32e7f35eee524fb8f4985229670693356e1c253bf1c6b19f905c609824418521b8d65334a9e2dc31eee862953809b91ccce6eb3731953959c2285d40525d8a8145330ac7e6f6415f34078f1a1ee90df0282224b5eec36d198428b0008fbe8f9c346eec8c9e4f809ca4dba3882bc4dd88e1ab1e156cd5c1d2494a47328d4cb9bb90fdf96f8e22dbc9c2a05fddb085530a540dffa6d2babeecd0c8c3d4031b99f75bea265ad853c8f26f63ed910fb57a1c5470a5b := by
  decide

/-- Keccak-f round 4 of the abc-input computation, on explicit states. -/
theorem keccakAbcRound4 :
    chi (rhoPi (theta 0xbc3e6565fe186162a7c94aba39779f8e6ebf3510e32e7f35eee524fb8f4985229670693356e1c253bf1c6b19f905c609824418521b8d65334a9e2dc31eee862953809b91ccce6eb3731953959c2285d40525d8a8145330ac7e6f6415f34078f1a1ee90df0282224b5eec36d198428b0008fbe8f9c346eec8c9e4f809ca4dba3882bc4dd88e1ab1e156cd5c1d2494a47328d4cb9bb90fdf96f8e22dbc9c2a05fddb085530a540dffa6d2babeecd0c8c3d4031b99f75bea265ad853c8f26f63ed910fb57a1c5470a5b)) ^^^ 0x8000000080008000 =
      0x703d7ad00f8a4de3b3685a7d459eded4936073df2bec52b07594a4eb426e768411e1cabde4b6d635c41328d2f6f738f2c1dd7ee8bd6b645f01163a41ac5931547966c1c60bb8b2f4f8a1d37c27665fab9d22cb3de7e99ebf7e3b424a68220a40034bd7a7f20021534300c9197462e9169c9b89225417518f48501d4592ca785d4ff50c1fd02d5b1c8d03e311bba0dbafe6379f0883be6877a0be5b06553c70931d55b3f8ee4800c68069ec499e32ef1007e7b66e8ab73bd82c37c8b29e8c4f735b60f45ed10e4bee := by
  decide

/-- Keccak-f round 5 of the abc-input computation, on explicit states. -/
theorem keccakAbcRound5 :
    chi (rhoPi (theta 0x703d7ad00f8a4de3b3685a7d459eded4936073df2bec52b07594a4eb426e768411e1cabde4b6d635c41328d2f6f738f2c1dd7ee8bd6b645f01163a41ac5931547966c1c60bb8b2f4f8a1d37c27665fab9d22cb3de7e99ebf7e3b424a68220a40034bd7a7f20021534300c9197462e9169c9b89225417518f48501d4592ca785d4ff50c1fd02d5b1c8d03e311bba0dbafe6379f0883be6877a0be5b06553c70931d55b3f8ee4800c68069ec499e32ef1007e7b66e8ab73bd82c37c8b29e8c4f735b60f45ed10e4bee)) ^^^ 0x808b =
      0xaada3833497b50c1b8b4b7121ea7ca04652650c07c4160ac43c6b84aac8ed56f6524509dd4f96e0d3c1483d70eec80dde6c544a7594eeb60c19018e36fbefbf044017639e569b987a13bd794ce042838bc8a3eb0e29398b408d1ec05dc92af1031df49add63ef1e8bf05470bad761cb02bd2db1e58703273f812d8a856de1a25036a1e09ad3e16a1ebaead43eaaffbf54ba7ae83a129748ea1f397dbbe7ca7f1a0aa7c92629c5a495943bcdc8ea4c6cd919db1268052fa78a8abb9600dc7f1133d9874c4121c4efd := by
  decide

/-- Keccak-f round 6 of the abc-input computation, on explicit states. -/
theorem keccakAbcRound6 :
    chi (rhoPi (theta 0xaada3833497b50c1b8b4b7121ea7ca04652650c07c4160ac43c6b84aac8ed56f6524509dd4f96e0d3c1483d70eec80dde6c544a7594eeb60c19018e36fbefbf044017639e569b987a13bd794ce042838bc8a3eb0e29398b408d1ec05dc92af1031df49add63ef1e8bf05470bad761cb02bd2db1e58703273f812d8a856de1a25036a1e09ad3e16a1ebaead43eaaffbf54ba7ae83a129748ea1f397dbbe7ca7f1a0aa7c92629c5a495943bcdc8ea4c6cd919db1268052fa78a8abb9600dc7f1133d9874c4121c4efd)) ^^^ 0x80000001 =
      0xb354127461ee7a4f3f16e9c13b861d3f54be0e3fe7168203230404e08f115eaaa02a0d568e154ca279f25ce865b39fb0fe548a17d34aa1e95ead449fa9cf32585c04e0f61928799d333621f7ae0d71bf67975182b106013fd82089169c45259745b511ab630e6766cc92e6b4504c90bb29527a7478a51310393d4292223ea46a1e57d467bb5cd0ab553618a2ceed8cef3782fb47da817f71e02d4bf7c1709eb0bdd3dd730d13104f3212bf5e289921539101ab98506dbf78a1c16a2978b5c198e4f9e90c96ef83d6 := by
  decide

/-- Keccak-f round 7 of the abc-input computation, on explicit states. -/
theorem keccakAbcRound7 :
    chi (rhoPi (theta 0xb354127461ee7a4f3f16e9c13b861d3f54be0e3fe7168203230404e08f115eaaa02a0d568e154ca279f25ce865b39fb0fe548a17d34aa1e95ead449fa9cf32585c04e0f61928799d333621f7ae0d71bf67975182b106013fd82089169c45259745b511ab630e6766cc92e6b4504c90bb29527a7478a51310393d4292223ea46a1e57d467bb5cd0ab553618a2ceed8cef3782fb47da817f71e02d4bf7c1709eb0bdd3dd730d13104f3212bf5e289921539101ab98506dbf78a1c16a2978b5c198e4f9e90c96ef83d6)) ^^^ 0x8000000080008081 =
      0x2ab4b2a19a60f05227646ceaf18028700f972a82c8ee81a615833cbec19f5393f5a34ee8fcad19ff57aa39082facfd514a50c17a7525883fbaacdce70f3220d4781dc8f0551b410030a2fcf60f0e193202c5509537320158f005c1d4bbd1a835b8f5cec1ee261d8bea2226451c84fc3600e54448c070778d326982e889fdf9d0b8e65ab48e956a3d5a76e9d953a208b8137da54c085274f642f06ed26c2b4c61d6a4d7b9a4e854d17b2b967ed1374e64392fe850500496df8a54efcf3cd0e230332e4e7b04174536 := by
  decide

/-- Keccak-f round 8 of the abc-input computation, on explicit states. -/
theorem keccakAbcRound8 :
    chi (rhoPi (theta 0x2ab4b2a19a60f05227646ceaf18028700f972a82c8ee81a615833cbec19f5393f5a34ee8fcad19ff57aa39082facfd514a50c17a7525883fbaacdce70f3220d4781dc8f0551b410030a2fcf60f0e193202c5509537320158f005c1d4bbd1a835b8f5cec1ee261d8bea2226451c84fc3600e54448c070778d326982e889fdf9d0b8e65ab48e956a3d5a76e9d953a208b8137da54c085274f642f06ed26c2b4c61d6a4d7b9a4e854d17b2b967ed1374e64392fe850500496df8a54efcf3cd0e230332e4e7b04174536)) ^^^ 0x8000000000008009 =
      0xfb3e42619b14a0e0c611d13d3ecd18ad2d268a58270e50b0c9e17b1ab9fc8a06b2984c710d48dd4eff3f05911c581b610239b928e379e876834dc60e53987504acf1e6de4cbd920b19950427ec010ad2c65ca802a18d4b3323b46e2ce22fed6581dc34913cd17dd264ac5b232326275fc79032447b5eeab7041b5370db7850300505e2a50d8ba041465dc5e266c924bd7085cd5394c2c5488c09d244d2002bbd2f1855fa0811075f0183b5d8d06a4dfc2f9932dec0af2e9bc4fdd2a7921ec1341413d15f9a58b82b := by
  decide

/-- Keccak-f round 9 of the abc-input computation, on explicit states. -/
theorem keccakAbcRound9 :
    chi (rhoPi (theta 0xfb3e42619b14a0e0c611d13d3ecd18ad2d268a58270e50b0c9e17b1ab9fc8a06b2984c710d48dd4eff3f05911c581b610239b928e379e876834dc60e53987504acf1e6de4cbd920b19950427ec010ad2c65ca802a18d4b3323b46e2ce22fed6581dc34913cd17dd264ac5b232326275fc79032447b5eeab7041b5370db7850300505e2a50d8ba041465dc5e266c924bd7085cd5394c2c5488c09d244d2002bbd2f1855fa0811075f0183b5d8d06a4dfc2f9932dec0af2e9bc4fdd2a7921ec1341413d15f9a58b82b)) ^^^ 0x8a =
      0x8e44d21c1d42007caeaca577a4868c71f47377667f45aa7dd6cc65cf573e2cdeb72952711539ff4d53dadd0cf3fb2d0df6ef03ba5f16baee30e7a8b08c9c8d72a3e7a09bbeeae1b47a67f175393d6ff65efdf054b2e0a0300aa4cef9b5b10ff619d79fe13f66346e494fde06216fec9c7dbb49522427867129f286e7c2e831011707fb920910c6da02e34cf13a69c89b137d4bddd484e0bb0553a5005155c78dd07ee7f2535eac4e82dcc93e3d329f5dc536e9d1203c7946fcbf50a0cb385f1497c40511eec66961 := by
  decide

/-- Keccak-f round 10 of the abc-input computation, on explicit states. -/
theorem keccakAbcRound10 :
    chi (rhoPi (theta 0x8e44d21c1d42007caeaca577a4868c71f47377667f45aa7dd6cc65cf573e2cdeb72952711539ff4d53dadd0cf3fb2d0df6ef03ba5f16baee30e7a8b08c9c8d72a3e7a09bbeeae1b47a67f175393d6ff65efdf054b2e0a0300aa4cef9b5b10ff619d79fe13f66346e494fde06216fec9c7dbb49522427867129f286e7c2e831011707fb920910c6da02e34cf13a69c89b137d4bddd484e0bb0553a5005155c78dd07ee7f2535eac4e82dcc93e3d329f5dc536e9d1203c7946fcbf50a0cb385f1497c40511eec66961)) ^^^ 0x88 =
      0x1f4bb69d264f54011ab6966d085eff05c55149feb7be21d107fab1101b62c406663a5f5d00526861d00ff7744eea32aea4e7d74dc96f37dd507998dc2ac7897aa5d8f40f4e3b86672a10ed0742d8385739e3816117c52969e4133b763907eb448a1dcb1beb0bda05ef7c6b624a11e207c760a18907715cbd3d38a06f23aa3e1b619d1705d04f359114e612a815bddc4b6c143cb71a388034a7c2e39ff2dc0749169a824824ae9b4d09a75d5080c3704b3d5fd0284d6373c7515e54042c3b58f66066993fcc62e555 := by
  decide

/-- Keccak-f round 11 of the abc-input computation, on explicit states. -/
theorem keccakAbcRound11 :
    chi (rhoPi (theta 0x1f4bb69d264f54011ab6966d085eff05c55149feb7be21d107fab1101b62c406663a5f5d00526861d00ff7744eea32aea4e7d74dc96f37dd507998dc2ac7897aa5d8f40f4e3b86672a10ed0742d8385739e3816117c52969e4133b763907eb448a1dcb1beb0bda05ef7c6b624a11e207c760a18907715cbd3d38a06f23aa3e1b619d1705d04f359114e612a815bddc4b6c143cb71a388034a7c2e39ff2dc0749169a824824ae9b4d09a75d5080c3704b3d5fd0284d6373c7515e54042c3b58f66066993fcc62e555)) ^^^ 0x80008009 =
      0x9925a441c5fa4750160d47967301587b7279a089a74bc120cd70932329033dcef867fd704fe7f3db86b7319308c6333fb64a617c3b80e24e2e599d33b68d4a8b53e3e955a6d8ea8947d8fda13deae237c134aad0ae756cdc8b56811acb83d6796366ef478ab50049889c084b3192def2c211dd8e9a0f3847323335deaed95b7bbf9ed285e583c904d24e58b3746a099400b759bcd6b8adc4a7a243c5a0501620d51a1ecda3916c795d030147bfc59e9d236d72efcf74f5bb194cf5de0eca6bc2ff7afe2da7b4ea9d := by
  decide

/-- Keccak-f round 12 of the abc-input computation, on explicit states. -/
theorem keccakAbcRound12 :
    chi (rhoPi (theta 0x9925a441c5fa4750160d47967301587b7279a089a74bc120cd70932329033dcef867fd704fe7f3db86b7319308c6333fb64a617c3b80e24e2e599d33b68d4a8b53e3e955a6d8ea8947d8fda13deae237c134aad0ae756cdc8b56811acb83d6796366ef478ab50049889c084b3192def2c211dd8e9a0f3847323335deaed95b7bbf9ed285e583c904d24e58b3746a099400b759bcd6b8adc4a7a243c5a0501620d51a1ecda3916c795d030147bfc59e9d236d72efcf74f5bb194cf5de0eca6bc2ff7afe2da7b4ea9d)) ^^^ 0x8000000a =
      0xc33529da19f0391d146590e63aabdf5fbd6e99b92a5bc6d4d50032c357acef5bc59ed1156ef2d3ecf6e95e8709c34cd0d48430777b794856864dbcfabf17dae473ea6e7d5c06b7ba012c57eea1229d18ff66946d38333905d704861c0c6e449f3214e9bcac7d62a36d1ba46a75eee717538691c2cbecba3f15d2b6daee571f07da28946acf14812426698b9de3a74a84903a914ea43b140067bb83626dc3cd9b4427b9cc5daec301a6e0bbfb5c617e7c75c58ff8f741ea71434ceb91a4a4939eed9e52eed7893220 := by
  decide

/-- Keccak-f round 13 of the abc-input computation, on explicit states. -/
theorem keccakAbcRound13 :
    chi (rhoPi (theta 0xc33529da19f0391d146590e63aabdf5fbd6e99b92a5bc6d4d50032c357acef5bc59ed1156ef2d3ecf6e95e8709c34cd0d48430777b794856864dbcfabf17dae473ea6e7d5c06b7ba012c57eea1229d18ff66946d38333905d704861c0c6e449f3214e9bcac7d62a36d1ba46a75eee717538691c2cbecba3f15d2b6daee571f07da28946acf14812426698b9de3a74a84903a914ea43b140067bb83626dc3cd9b4427b9cc5daec301a6e0bbfb5c617e7c75c58ff8f741ea71434ceb91a4a4939eed9e52eed7893220)) ^^^ 0x8000808b =
      0xf580850a9b3dfb83d0bc0fa6dd7dbdee2f0005df34884f5cbf211e42979d28bd6ec68667ad0227a1847ae194b6363b204de020661501648557d7efc0fd622434b8e2c873df3eb56898f179c978e943f9cd96a13cf6c92b42f59ba8abe644bea296289722c0ff00754cd48b411d8a22b844fd6c16428e494024e6e6137f3251a52000c37187b39d29c045ef95151a91cb0ad4d74ad0b14bf30047508d51a4dabec34a2ff40ce4c08e1098bbbc44b502344b79fba74b8497f33e3fc391785ff41ac7de86b8324651d4 := by
  decide

/-- Keccak-f round 14 of the abc-input computation, on explicit states. -/
theorem keccakAbcRound14 :
    chi (rhoPi (theta 0xf580850a9b3dfb83d0bc0fa6dd7dbdee2f0005df34884f5cbf211e42979d28bd6ec68667ad0227a1847ae194b6363b204de020661501648557d7efc0fd622434b8e2c873df3eb56898f179c978e943f9cd96a13cf6c92b42f59ba8abe644bea296289722c0ff00754cd48b411d8a22b844fd6c16428e494024e6e6137f3251a52000c37187b39d29c045ef95151a91cb0ad4d74ad0b14bf30047508d51a4dabec34a2ff40ce4c08e1098bbbc44b502344b79fba74b8497f33e3fc391785ff41ac7de86b8324651d4)) ^^^ 0x800000000000008b =
      0xba307ce10f15214067ce669d8c33ff57dcdb83997da80f94e4967997ac53e04d1080b76de25594e7caaeb3426aabf052cd76dedbb894c905773db0a6d2891ed0b6a33ae4578b5f24c57e3b5db8f98d2a5d5aea9d98f027a839529b6019f00333b811c0d564f9a7a41827d7ea99839c71f952a0441da907536cee67123361696791b094eb7f5b8b4022fee0188a3d35dd3e7b0f83a056179803961a8dc8d28a57c75458307ed417e3fc04c77e683de6a6fa7694b486226ae133caf54929c48f2cf64592128de0d95 := by
  decide

/-- Keccak-f round 15 of the abc-input computation, on explicit states. -/
theorem keccakAbcRound15 :
    chi (rhoPi (theta 0xba307ce10f15214067ce669d8c33ff57dcdb83997da80f94e4967997ac53e04d1080b76de25594e7caaeb3426aabf052cd76dedbb894c905773db0a6d2891ed0b6a33ae4578b5f24c57e3b5db8f98d2a5d5aea9d98f027a839529b6019f00333b811c0d564f9a7a41827d7ea99839c71f952a0441da907536cee67123361696791b094eb7f5b8b4022fee0188a3d35dd3e7b0f83a056179803961a8dc8d28a57c75458307ed417e3fc04c77e683de6a6fa7694b486226ae133caf54929c48f2cf64592128de0d95)) ^^^ 0x8000000000008089 =
      0x68dfa56d70fa15c7e72e48bb8cdb9cdb3dbe94accffedcc1551af9883ca7eb417d60a40e873e31056a5034cc5c88a436915cdb4b30e67ce187dd679140c011c5bf9aed511a8dfa16eae547ee2c05fb713c71155f58b37bea2370e8d5eb4fbe081ff2f915433fda43078dbed45a18d98e4ffb0beef508800312fe8839f1002601668222f4411a84c07078bb76a5a4fe1259f509bee8d521eb21ce3f5e121b5b64651e3af44a8ebad641a9f842f56c15cbad4089848da43a6dbc819a399bede0af5ea1d44a9aaa12ba := by
  decide

/-- Keccak-f round 16 of the abc-input computation, on explicit states. -/
theorem keccakAbcRound16 :
    chi (rhoPi (theta 0x68dfa56d70fa15c7e72e48bb8cdb9cdb3dbe94accffedcc1551af9883ca7eb417d60a40e873e31056a5034cc5c88a436915cdb4b30e67ce187dd679140c011c5bf9aed511a8dfa16eae547ee2c05fb713c71155f58b37bea2370e8d5eb4fbe081ff2f915433fda43078dbed45a18d98e4ffb0beef508800312fe8839f1002601668222f4411a84c07078bb76a5a4fe1259f509bee8d521eb21ce3f5e121b5b64651e3af44a8ebad641a9f842f56c15cbad4089848da43a6dbc819a399bede0af5ea1d44a9aaa12ba)) ^^^ 0x8000000000008003 =
      0x2d622fadac0d3afd2d659f24432552fa59dbe098b5c1548b946204dd2699418dd9c37cca4869d7625f0c333e06d147f60ebe0460231d9df34a30560e61131d47b08fe9c6002387249b1477858718f4a984957f47f2cee7310a93ea3a807c549a5507b004021349591e203cc9a1b66b611486502d5ad90af5db325dc864df8c75ab34df0da9df820be0b87689229e06ccf2ba793cf7d32f53f8ff30f7babfca6748b0ef2c936b5d14f9845f6100bf7b79e25fe700735dc05554c328db6f9326452561d669cbfd175f := by
  decide

/-- Keccak-f round 17 of the abc-input computation, on explicit states. -/
theorem keccakAbcRound17 :
    chi (rhoPi (theta 0x2d622fadac0d3afd2d659f24432552fa59dbe098b5c1548b946204dd2699418dd9c37cca4869d7625f0c333e06d147f60ebe0460231d9df34a30560e61131d47b08fe9c6002387249b1477858718f4a984957f47f2cee7310a93ea3a807c549a5507b004021349591e203cc9a1b66b611486502d5ad90af5db325dc864df8c75ab34df0da9df820be0b87689229e06ccf2ba793cf7d32f53f8ff30f7babfca6748b0ef2c936b5d14f9845f6100bf7b79e25fe700735dc05554c328db6f9326452561d669cbfd175f)) ^^^ 0x8000000000008002 =
      0x467a1a6a31f066e76fe83e8a474bb63c0fb4aea549ea967b18daf77f3bbde0ed6562a9c43fd47e42c0a395aa50436bd2a213b41e3f090096a21c008d24df9777a00f7e18d4de1a5a7a2cd79ae1275f0be7036551b213574e638dc7a62825b28314f24451171ad2f2944cb7adc65cfc23ae8736210bf8bf2aa46390116f9097ee866b54c6ff26fd5824a48baf5f284238e97d16a0c9dac81cb90f1ba22157c623ed55533b08293003337f6e79fbf20d7ef142a8f41294fc79c7699d1f878f7155c17327d34ad21993 := by
  decide

/-- Keccak-f round 18 of the abc-input computation, on explicit states. -/
theorem keccakAbcRound18 :
    chi (rhoPi (theta 0x467a1a6a31f066e76fe83e8a474bb63c0fb4aea549ea967b18daf77f3bbde0ed6562a9c43fd47e42c0a395aa50436bd2a213b41e3f090096a21c008d24df9777a00f7e18d4de1a5a7a2cd79ae1275f0be7036551b213574e638dc7a62825b28314f24451171ad2f2944cb7adc65cfc23ae8736210bf8bf2aa46390116f9097ee866b54c6ff26fd5824a48baf5f284238e97d16a0c9dac81cb90f1ba22157c623ed55533b08293003337f6e79fbf20d7ef142a8f41294fc79c7699d1f878f7155c17327d34ad21993)) ^^^ 0x8000000000000080 =
      0x64c54796a085e81146b8f68fe00b95d9fe5073678da908cde4778b6f7bd0d407ab428cb6730b4a260fe2cc64db9dea30fd7d477060784f6f034514db4e9a9a12158421d96fc5ce1d594fae3bcb30de67ba611467b0b90a53ae00d8f1e05aafe8e6ba0e4a311cd2ac32744015854556846bc1fce28cf757ca376ffcd954feb887181ef73ef30b47ee1ce2a30289555025380837e67668c63ac9c6a1bf59609746a0559d0ecb53d39c85ec75b2f0bfe6c69c3b0b00dcb1e7d0646f0ba91f0ca9a2f484e486f0efcd77 := by
  decide

/-- Keccak-f round 19 of the abc-input computation, on explicit states. -/
theorem keccakAbcRound19 :
    chi (rhoPi (theta 0x64c54796a085e81146b8f68fe00b95d9fe5073678da908cde4778b6f7bd0d407ab428cb6730b4a260fe2cc64db9dea30fd7d477060784f6f034514db4e9a9a12158421d96fc5ce1d594fae3bcb30de67ba611467b0b90a53ae00d8f1e05aafe8e6ba0e4a311cd2ac32744015854556846bc1fce28cf757ca376ffcd954feb887181ef73ef30b47ee1ce2a30289555025380837e67668c63ac9c6a1bf59609746a0559d0ecb53d39c85ec75b2f0bfe6c69c3b0b00dcb1e7d0646f0ba91f0ca9a2f484e486f0efcd77)) ^^^ 0x800a =
      0xc1508707a302eef0ad5b06f9fd1651d081f6e13fa5e42e757507cea567652cb1441d22a2b86f1b4a5d1815c0fb5bd8ea0a1bf0ee88fce464d822ae5f3383d600d2d232ab8fc3222a01b2c0f0bb0b36816fd7c53db90d0a7b4819698285bd87ce37790700417157fa1368f22f10bad3a0ec8f273df2f0b260de3bfc55261d903616d151d4ee0ef32a5bcfd5c854cb95343b70de715b6b26d0af73ecf12db6a5aca4ae36c561b0bb33491c7477d3761e4f3c683149a8fdb1408b0d1e80f5f5d4449dfb96545c836829 := by
  decide

/-- Keccak-f round 20 of the abc-input computation, on explicit states. -/
theorem keccakAbcRound20 :
    chi (rhoPi (theta 0xc1508707a302eef0ad5b06f9fd1651d081f6e13fa5e42e757507cea567652cb1441d22a2b86f1b4a5d1815c0fb5bd8ea0a1bf0ee88fce464d822ae5f3383d600d2d232ab8fc3222a01b2c0f0bb0b36816fd7c53db90d0a7b4819698285bd87ce37790700417157fa1368f22f10bad3a0ec8f273df2f0b260de3bfc55261d903616d151d4ee0ef32a5bcfd5c854cb95343b70de715b6b26d0af73ecf12db6a5aca4ae36c561b0bb33491c7477d3761e4f3c683149a8fdb1408b0d1e80f5f5d4449dfb96545c836829)) ^^^ 0x800000008000000a =
      0xfaee27b42651c3ace8fd374b6a887d71a2381c408d15cfbc40c3846182c45e6aa6587a6910080924a22655f0bb1f44d49f39d5ac23c845ee34d69f09a64a627bee9fb9c4fe0edf36252ee81a894a7fd20138c22f4c431a5fd9915227348b89fa6de4520db1e61fff198bfc540380890f6125f311be0d27c838a74f786f62b63f6fa64bea6a946324f0209fafcd4cc60b93b0e74e85d5b6c75b5b53069d0a7e34f2a912fb65ed096dd60d41cc38d0009e6693488740c17d4c2f7c0e64f9859858dd73c60ed316443c := by
  decide

/-- Keccak-f round 21 of the abc-input computation, on explicit states. -/
theorem keccakAbcRound21 :
    chi (rhoPi (theta 0xfaee27b42651c3ace8fd374b6a887d71a2381c408d15cfbc40c3846182c45e6aa6587a6910080924a22655f0bb1f44d49f39d5ac23c845ee34d69f09a64a627bee9fb9c4fe0edf36252ee81a894a7fd20138c22f4c431a5fd9915227348b89fa6de4520db1e61fff198bfc540380890f6125f311be0d27c838a74f786f62b63f6fa64bea6a946324f0209fafcd4cc60b93b0e74e85d5b6c75b5b53069d0a7e34f2a912fb65ed096dd60d41cc38d0009e6693488740c17d4c2f7c0e64f9859858dd73c60ed316443c)) ^^^ 0x8000000080008081 =
      0xb72b43443f38de9bf8b47b61cca9a9adb206f6610b9c18da1032f84befc5d2363590434017393347e6a3a47bfed84db0694b7d23f1a18a1e8cb319dae9892eba6acd79b8f93a75844cd4a06cf7ac081c09cf34f9992492170f270b425219265d25f143315403231d3bb62e6270111a1524e2bc25f05b622b14fae801fa286bb9bddbcee2c9ea4760676a7a732fda49b6443ca4bbe8eaece13acc5e90bcd498c979213655a0980d5702aa3701017a8d21c1a5ea9620fd9737eee0e7ca9efde4aec8bf72508ea0b811 := by
  decide

/-- Keccak-f round 22 of the abc-input computation, on explicit states. -/
theorem keccakAbcRound22 :
    chi (rhoPi (theta 0xb72b43443f38de9bf8b47b61cca9a9adb206f6610b9c18da1032f84befc5d2363590434017393347e6a3a47bfed84db0694b7d23f1a18a1e8cb319dae9892eba6acd79b8f93a75844cd4a06cf7ac081c09cf34f9992492170f270b425219265d25f143315403231d3bb62e6270111a1524e2bc25f05b622b14fae801fa286bb9bddbcee2c9ea4760676a7a732fda49b6443ca4bbe8eaece13acc5e90bcd498c979213655a0980d5702aa3701017a8d21c1a5ea9620fd9737eee0e7ca9efde4aec8bf72508ea0b811)) ^^^ 0x8000000000008080 =
      0x97e2c9667c4ae11e1e100dd4c56973c8e910b499de03442a8a3dbf30d45220213a9abb677dc02b7c2006037cadf1dcad8c6fb3b8c20e133aa595d4c70ba07338ff53479507beac2b2297f98f687802bdd750d6fcfd039c9f80b0031d2d394ff84f9750a4dbb1385e4b3fdf042c5886b36487d9f99feb3db697599b28aabae8d65bf89756db14c43cb2ab4b969e6b7307f651399434622ba7ab607abd17c0c144042e7e7e2a4139cb67090f114df17b1bd8492c0b8a38b01f352b8a1fba3d9483624cf262ad2714ce := by
  decide

/-- Keccak-f round 23 of the abc-input computation, on explicit states. -/
theorem keccakAbcRound23 :
    chi (rhoPi (theta 0x97e2c9667c4ae11e1e100dd4c56973c8e910b499de03442a8a3dbf30d45220213a9abb677dc02b7c2006037cadf1dcad8c6fb3b8c20e133aa595d4c70ba07338ff53479507beac2b2297f98f687802bdd750d6fcfd039c9f80b0031d2d394ff84f9750a4dbb1385e4b3fdf042c5886b36487d9f99feb3db697599b28aabae8d65bf89756db14c43cb2ab4b969e6b7307f651399434622ba7ab607abd17c0c144042e7e7e2a4139cb67090f114df17b1bd8492c0b8a38b01f352b8a1fba3d9483624cf262ad2714ce)) ^^^ 0x80000001 =
      0xb0444bcbc9d10553d630da462678de6b490ba44850ef0a8095da8d8fae5c3dbb76429cd3318b0b76ffd14303d7c7ba4e056c99ce5b77c3c11f1876803fffb4ab850da5f46f4ab7d5c73c89517a3febc6f329d9104030ec3970d3f05f1fca68e1bcd3f5c75e0d0b56bf2576559c3bc025a600e6bd7e1194e6210cffd6eadbfa356e5cd302bb56a0f1e9986cb7c3786fef8e00e58f8c0fa2a9106b6512cd67fff326d4206724fa74a5bed81aa723a148426d4fef3618652a3dc5bf390099c902074398e5f06685135d := by
  decide

/-- Keccak-f round 24 of the abc-input computation, on explicit states. -/
theorem keccakAbcRound24 :
    chi (rhoPi (theta 0xb0444bcbc9d10553d630da462678de6b490ba44850ef0a8095da8d8fae5c3dbb76429cd3318b0b76ffd14303d7c7ba4e056c99ce5b77c3c11f1876803fffb4ab850da5f46f4ab7d5c73c89517a3febc6f329d9104030ec3970d3f05f1fca68e1bcd3f5c75e0d0b56bf2576559c3bc025a600e6bd7e1194e6210cffd6eadbfa356e5cd302bb56a0f1e9986cb7c3786fef8e00e58f8c0fa2a9106b6512cd67fff326d4206724fa74a5bed81aa723a148426d4fef3618652a3dc5bf390099c902074398e5f06685135d)) ^^^ 0x8000000080008008 =
      0xb5d89c9e96e91041d5c25129ae161a7d668094928c4b6cc302fc22dcacbc3cc15fc53e5cb938bec825a3af600aecb585d272513dd6dd06c930bef91bffc67d8a4b3f7866395fe1bd631239dca84621ef1f24793254851e4e60c4cc90d90ca7051a8b8b2a4af008623092fccecda9f8bfbf130581a54ef742a80a1c04bc11baa29f5e838db186c4ac8fdf74f3f204df9c31f2c561623fb1f72097c8aad6603e27f81092fb22f636d13215431145e2bf465b529d3e6e085f85bd90d36b2d175c04b225e24fa75d983a := by
  decide

/-- The full Keccak-f[1600] permutation on the initial abc-input state. -/
theorem keccakF_abc :
    keccakF 0x80000000000000000000000000000000000000000000000000000000000000000000000000000000000000000000000000000000000000000000000000000000000000000000000000000000000000000000000000000000000000000000000000000000000000000000000000000000000000000000000000000000000000000000000006636261 =
      0xb5d89c9e96e91041d5c25129ae161a7d668094928c4b6cc302fc22dcacbc3cc15fc53e5cb938bec825a3af600aecb585d272513dd6dd06c930bef91bffc67d8a4b3f7866395fe1bd631239dca84621ef1f24793254851e4e60c4cc90d90ca7051a8b8b2a4af008623092fccecda9f8bfbf130581a54ef742a80a1c04bc11baa29f5e838db186c4ac8fdf74f3f204df9c31f2c561623fb1f72097c8aad6603e27f81092fb22f636d13215431145e2bf465b529d3e6e085f85bd90d36b2d175c04b225e24fa75d983a := by
  simp only [keccakF, iotaConstants, List.foldl_cons, List.foldl_nil,
    keccakAbcRound1, keccakAbcRound2, keccakAbcRound3, keccakAbcRound4, keccakAbcRound5, keccakAbcRound6, keccakAbcRound7, keccakAbcRound8, keccakAbcRound9, keccakAbcRound10, keccakAbcRound11, keccakAbcRound12, keccakAbcRound13, keccakAbcRound14, keccakAbcRound15, keccakAbcRound16, keccakAbcRound17, keccakAbcRound18, keccakAbcRound19, keccakAbcRound20, keccakAbcRound21, keccakAbcRound22, keccakAbcRound23, keccakAbcRound24]

/-- Squeezing 32 digest bytes from the final abc-input state. -/
theorem squeeze_abc :
    (List.range 32).map (fun k => (0xb5d89c9e96e91041d5c25129ae161a7d668094928c4b6cc302fc22dcacbc3cc15fc53e5cb938bec825a3af600aecb585d272513dd6dd06c930bef91bffc67d8a4b3f7866395fe1bd631239dca84621ef1f24793254851e4e60c4cc90d90ca7051a8b8b2a4af008623092fccecda9f8bfbf130581a54ef742a80a1c04bc11baa29f5e838db186c4ac8fdf74f3f204df9c31f2c561623fb1f72097c8aad6603e27f81092fb22f636d13215431145e2bf465b529d3e6e085f85bd90d36b2d175c04b225e24fa75d983a >>> (8 * k)) &&& 255) =
      [58, 152, 93, 167, 79, 226, 37, 178, 4, 92, 23, 45, 107, 211, 144, 189, 133, 95, 8, 110, 62, 157, 82, 91, 70, 191, 226, 69, 17, 67, 21, 50] := by
  decide
/-- Absorbing exactly one rate-sized block unfolds to one permutation call. -/
theorem absorbBlocks_one (st : Nat) (p : List Nat) :
    absorbBlocks 1 st p = keccakF (st ^^^ bytesToNat (p.take 136)) := rfl

/-- SHA3-256 digest bytes of the empty input, assembled from the
explicit padding, absorption and round computations. -/
theorem sha3_256_empty :
    sha3_256 (utf8Encode "") = [167, 255, 198, 248, 191, 30, 215, 102, 81, 193, 71, 86, 160, 97, 214, 98, 245, 128, 255, 77, 228, 59, 73, 250, 130, 216, 10, 75, 128, 248, 67, 74] := by
  have hpad : sha3Pad (utf8Encode "") =
      [6, 0, 0, 0, 0, 0, 0, 0, 0, 0, 0, 0, 0, 0, 0, 0, 0, 0, 0, 0, 0, 0, 0, 0, 0, 0, 0, 0, 0, 0, 0, 0, 0, 0, 0, 0, 0, 0, 0, 0, 0, 0, 0, 0, 0, 0, 0, 0, 0, 0, 0, 0, 0, 0, 0, 0, 0, 0, 0, 0, 0, 0, 0, 0, 0, 0, 0, 0, 0, 0, 0, 0, 0, 0, 0, 0, 0, 0, 0, 0, 0, 0, 0, 0, 0, 0, 0, 0, 0, 0, 0, 0, 0, 0, 0, 0, 0, 0, 0, 0, 0, 0, 0, 0, 0, 0, 0, 0, 0, 0, 0, 0, 0, 0, 0, 0, 0, 0, 0, 0, 0, 0, 0, 0, 0, 0, 0, 0, 0, 0, 0, 0, 0, 0, 0, 128] := by
    decide
  have hlen : ([6, 0, 0, 0, 0, 0, 0, 0, 0, 0, 0, 0, 0, 0, 0, 0, 0, 0, 0, 0, 0, 0, 0, 0, 0, 0, 0, 0, 0, 0, 0, 0, 0, 0, 0, 0, 0, 0, 0, 0, 0, 0, 0, 0, 0, 0, 0, 0, 0, 0, 0, 0, 0, 0, 0, 0, 0, 0, 0, 0, 0, 0, 0, 0, 0, 0, 0, 0, 0, 0, 0, 0, 0, 0, 0, 0, 0, 0, 0, 0, 0, 0, 0, 0, 0, 0, 0, 0, 0, 0, 0, 0, 0, 0, 0, 0, 0, 0, 0, 0, 0, 0, 0, 0, 0, 0, 0, 0, 0, 0, 0, 0, 0, 0, 0, 0, 0, 0, 0, 0, 0, 0, 0, 0, 0, 0, 0, 0, 0, 0, 0, 0, 0, 0, 0, 128] : List Nat).length / 136 = 1 := by decide
  have hxor : 0 ^^^ bytesToNat (([6, 0, 0, 0, 0, 0, 0, 0, 0, 0, 0, 0, 0, 0, 0, 0, 0, 0, 0, 0, 0, 0, 0, 0, 0, 0, 0, 0, 0, 0, 0, 0, 0, 0, 0, 0, 0, 0, 0, 0, 0, 0, 0, 0, 0, 0, 0, 0, 0, 0, 0, 0, 0, 0, 0, 0, 0, 0, 0, 0, 0, 0, 0, 0, 0, 0, 0, 0, 0, 0, 0, 0, 0, 0, 0, 0, 0, 0, 0, 0, 0, 0, 0, 0, 0, 0, 0, 0, 0, 0, 0, 0, 0, 0, 0, 0, 0, 0, 0, 0, 0, 0, 0, 0, 0, 0, 0, 0, 0, 0, 0, 0, 0, 0, 0, 0, 0, 0, 0, 0, 0, 0, 0, 0, 0, 0, 0, 0, 0, 0, 0, 0, 0, 0, 0, 128] : List Nat).take 136) =
      0x80000000000000000000000000000000000000000000000000000000000000000000000000000000000000000000000000000000000000000000000000000000000000000000000000000000000000000000000000000000000000000000000000000000000000000000000000000000000000000000000000000000000000000000000000000006 := by
    decide
  simp only [sha3_256, hpad, hlen, absorbBlocks_one, hxor, keccakF_empty, squeeze_empty]

/-- SHA3-256 digest bytes of the abc input, assembled from the
explicit padding, absorption and round computations. -/
theorem sha3_256_abc :
    sha3_256 (utf8Encode "abc") = [58, 152, 93, 167, 79, 226, 37, 178, 4, 92, 23, 45, 107, 211, 144, 189, 133, 95, 8, 110, 62, 157, 82, 91, 70, 191, 226, 69, 17, 67, 21, 50] := by
  have hpad : sha3Pad (utf8Encode "abc") =
      [97, 98, 99, 6, 0, 0, 0, 0, 0, 0, 0, 0, 0, 0, 0, 0, 0, 0, 0, 0, 0, 0, 0, 0, 0, 0, 0, 0, 0, 0, 0, 0, 0, 0, 0, 0, 0, 0, 0, 0, 0, 0, 0, 0, 0, 0, 0, 0, 0, 0, 0, 0, 0, 0, 0, 0, 0, 0, 0, 0, 0, 0, 0, 0, 0, 0, 0, 0, 0, 0, 0, 0, 0, 0, 0, 0, 0, 0, 0, 0, 0, 0, 0, 0, 0, 0, 0, 0, 0, 0, 0, 0, 0, 0, 0, 0, 0, 0, 0, 0, 0, 0, 0, 0, 0, 0, 0, 0, 0, 0, 0, 0, 0, 0, 0, 0, 0, 0, 0, 0, 0, 0, 0, 0, 0, 0, 0, 0, 0, 0, 0, 0, 0, 0, 0, 128] := by
    decide
  have hlen : ([97, 98, 99, 6, 0, 0, 0, 0, 0, 0, 0, 0, 0, 0, 0, 0, 0, 0, 0, 0, 0, 0, 0, 0, 0, 0, 0, 0, 0, 0, 0, 0, 0, 0, 0, 0, 0, 0, 0, 0, 0, 0, 0, 0, 0, 0, 0, 0, 0, 0, 0, 0, 0, 0, 0, 0, 0, 0, 0, 0, 0, 0, 0, 0, 0, 0, 0, 0, 0, 0, 0, 0, 0, 0, 0, 0, 0, 0, 0, 0, 0, 0, 0, 0, 0, 0, 0, 0, 0, 0, 0, 0, 0, 0, 0, 0, 0, 0, 0, 0, 0, 0, 0, 0, 0, 0, 0, 0, 0, 0, 0, 0, 0, 0, 0, 0, 0, 0, 0, 0, 0, 0, 0, 0, 0, 0, 0, 0, 0, 0, 0, 0, 0, 0, 0, 128] : List Nat).length / 136 = 1 := by decide
  have hxor : 0 ^^^ bytesToNat (([97, 98, 99, 6, 0, 0, 0, 0, 0, 0, 0, 0, 0, 0, 0, 0, 0, 0, 0, 0, 0, 0, 0, 0, 0, 0, 0, 0, 0, 0, 0, 0, 0, 0, 0, 0, 0, 0, 0, 0, 0, 0, 0, 0, 0, 0, 0, 0, 0, 0, 0, 0, 0, 0, 0, 0, 0, 0, 0, 0, 0, 0, 0, 0, 0, 0, 0, 0, 0, 0, 0, 0, 0, 0, 0, 0, 0, 0, 0, 0, 0, 0, 0, 0, 0, 0, 0, 0, 0, 0, 0, 0, 0, 0, 0, 0, 0, 0, 0, 0, 0, 0, 0, 0, 0, 0, 0, 0, 0, 0, 0, 0, 0, 0, 0, 0, 0, 0, 0, 0, 0, 0, 0, 0, 0, 0, 0, 0, 0, 0, 0, 0, 0, 0, 0, 128] : List Nat).take 136) =
      0x80000000000000000000000000000000000000000000000000000000000000000000000000000000000000000000000000000000000000000000000000000000000000000000000000000000000000000000000000000000000000000000000000000000000000000000000000000000000000000000000000000000000000000000000006636261 := by
    decide
  simp only [sha3_256, hpad, hlen, absorbBlocks_one, hxor, keccakF_abc, squeeze_abc]
/-- The fixed prompt passed to `input()` on line 5 of the source. -/
def inputPrompt : String := "Masukkan nama anda: "

/-- Python `input()` applied to the raw standard-input line: the line is
returned with its trailing line terminator stripped and nothing else. -/
def stripNewline (line : String) : String :=
  if line.data.getLast? = some '\n' then String.mk line.data.dropLast else line

/-- One line produced by Python `print(a, b)`: the two arguments joined by
the default separator, a single space. -/
def printTwo (a b : String) : String := a ++ " " ++ b

/-- The two lines printed by the module body for a given name
(the string already returned by the input reader). -/
def programOutput (nama : String) : List String :=
  let encoded := utf8Encode nama
  let nama_encoded := sha3_256 encoded
  [printTwo "Nama sebelum di hash: " nama,
   printTwo "Nama setelah di hash: " (hexdigest nama_encoded)]

/-- Observable effects of the module body, one per effectful statement. -/
inductive Effect where
  | readLine : String → String → Effect
  | shell : String → Effect
  | hashed : List Nat → Effect
  | printed : String → Effect
  deriving DecidableEq

/-- The module body as a straight-line trace on a raw standard-input line:
`input(...)`, `os.system("clear")`, `hashlib.sha3_256(nama.encode())`, and
the two `print` statements, in source order. -/
def run (stdinLine : String) : List Effect :=
  let nama := stripNewline stdinLine
  let encoded := utf8Encode nama
  let nama_encoded := sha3_256 encoded
  [Effect.readLine inputPrompt nama,
   Effect.shell "clear",
   Effect.hashed nama_encoded,
   Effect.printed (printTwo "Nama sebelum di hash: " nama),
   Effect.printed (printTwo "Nama setelah di hash: " (hexdigest nama_encoded))]

/-- The four pipeline phases named by the spec. -/
inductive Step where
  | readInput
  | clearTerminal
  | hashName
  | printOutput
  deriving DecidableEq

/-- The phase an effect belongs to. -/
def stepOf : Effect → Step
  | .readLine _ _ => .readInput
  | .shell _ => .clearTerminal
  | .hashed _ => .hashName
  | .printed _ => .printOutput

/-- Characters allowed in a lowercase hexadecimal rendering. -/
def isLowerHexDigit (c : Char) : Prop :=
  (48 ≤ c.toNat ∧ c.toNat ≤ 57) ∨ (97 ≤ c.toNat ∧ c.toNat ≤ 102)

instance (c : Char) : Decidable (isLowerHexDigit c) := by
  unfold isLowerHexDigit
  exact inferInstance

/-- Rebuilding a string from its character list gives the string back. -/
theorem mk_data (s : String) : String.mk s.data = s := by
  cases s
  rfl

/-- The first printed line, definitionally. -/
theorem line1_eq (nama : String) :
    (programOutput nama).getD 0 "" = printTwo "Nama sebelum di hash: " nama := rfl

/-- The second printed line, definitionally. -/
theorem line2_eq (nama : String) :
    (programOutput nama).getD 1 "" =
      printTwo "Nama setelah di hash: " (hexdigest (sha3_256 (utf8Encode nama))) := rfl

/-- Character-level shape of a `print(a, b)` line. -/
theorem printTwo_data (a b : String) :
    (printTwo a b).data = a.data ++ ' ' :: b.data := by
  simp [printTwo, String.data_append, show (" " : String).data = [' '] from rfl]

/-- Character-level shape of the first printed line: the label with the
separator space, then the input characters unchanged. -/
theorem line1_data (nama : String) :
    ((programOutput nama).getD 0 "").data =
      ("Nama sebelum di hash:  " : String).data ++ nama.data := by
  rw [line1_eq, printTwo_data]
  have h : ("Nama sebelum di hash:  " : String).data =
      ("Nama sebelum di hash: " : String).data ++ [' '] := by decide
  rw [h, List.append_assoc]
  rfl

/-- Character-level shape of the second printed line. -/
theorem line2_data (nama : String) :
    ((programOutput nama).getD 1 "").data =
      ("Nama setelah di hash:  " : String).data ++
        (hexdigest (sha3_256 (utf8Encode nama))).data := by
  rw [line2_eq, printTwo_data]
  have h : ("Nama setelah di hash:  " : String).data =
      ("Nama setelah di hash: " : String).data ++ [' '] := by decide
  rw [h, List.append_assoc]
  rfl

/-- Dropping the 23 label characters of the first line recovers the input. -/
theorem line1_drop (nama : String) :
    (((programOutput nama).getD 0 "").data).drop 23 = nama.data := by
  rw [line1_data]
  have h : (("Nama sebelum di hash:  " : String).data).length = 23 := by decide
  rw [← h, List.drop_left]

/-- The digest always has exactly 32 bytes, for every message. -/
theorem sha3_length (msg : List Nat) : (sha3_256 msg).length = 32 := by
  simp [sha3_256]

/-- Every digest byte is below 256. -/
theorem sha3_bytes_lt (msg : List Nat) : ∀ b ∈ sha3_256 msg, b < 256 := by
  intro b hb
  simp only [sha3_256, List.mem_map, List.mem_range] at hb
  obtain ⟨k, _hk, hbk⟩ := hb
  have h2 : b ≤ 255 := hbk ▸ Nat.and_le_right
  omega

/-- Hex digits produced by `hexChar` on nibbles are lowercase hex. -/
theorem hexChar_isLowerHexDigit (n : Nat) (h : n < 16) :
    isLowerHexDigit (hexChar n) := by
  interval_cases n <;> decide

/-- The hex pair expansion doubles the length. -/
theorem hexPairs_length (bs : List Nat) :
    (bs.flatMap (fun b => [hexChar (b / 16), hexChar (b % 16)])).length =
      2 * bs.length := by
  induction bs with
  | nil => rfl
  | cons b t ih =>
    simp only [List.flatMap_cons, List.length_append, ih, List.length_cons,
      List.length_nil]
    omega

/-- The hex rendering of a byte list has twice as many characters. -/
theorem hexdigest_length (bs : List Nat) :
    (hexdigest bs).length = 2 * bs.length := by
  have h := hexPairs_length bs
  simpa [hexdigest, String.length] using h

/-- Every character of the hex rendering of bytes is a lowercase hex digit. -/
theorem hexdigest_chars (bs : List Nat) (hb : ∀ b ∈ bs, b < 256) :
    ∀ c ∈ (hexdigest bs).data, isLowerHexDigit c := by
  intro c hc
  have hc2 : c ∈ bs.flatMap (fun b => [hexChar (b / 16), hexChar (b % 16)]) := hc
  rw [List.mem_flatMap] at hc2
  obtain ⟨b, hbs, hcb⟩ := hc2
  have h256 := hb b hbs
  have hdiv : b / 16 < 16 := by omega
  have hmod : b % 16 < 16 := by omega
  simp only [List.mem_cons, List.not_mem_nil, or_false] at hcb
  rcases hcb with rfl | rfl
  · exact hexChar_isLowerHexDigit _ hdiv
  · exact hexChar_isLowerHexDigit _ hmod
/-- Claim C1: hashing is deterministic — the printed digest depends only on
the input string, so equal input strings yield the identical digest. -/
theorem hashing_deterministic (s₁ s₂ : String) (h : s₁ = s₂) :
    hexdigest (sha3_256 (utf8Encode s₁)) = hexdigest (sha3_256 (utf8Encode s₂)) := by
  rw [h]

/-- Witness for the determinism theorem at the concrete input "abc". -/
theorem hashing_deterministic_witness :
    hexdigest (sha3_256 (utf8Encode "abc")) = hexdigest (sha3_256 (utf8Encode "abc")) :=
  hashing_deterministic "abc" "abc" rfl

/-- Claim C2: the empty string is accepted and hashed as the empty byte
sequence, and its digest is the well-known SHA3-256 empty-input digest. -/
theorem sha3_empty_input_digest :
    utf8Encode "" = [] ∧
    hexdigest (sha3_256 (utf8Encode "")) =
      "a7ffc6f8bf1ed76651c14756a061d662f580ff4de43b49fa82d80a4b80f8434a" := by
  refine ⟨rfl, ?_⟩
  rw [sha3_256_empty]
  decide

/-- Claim C3: hashing the string "abc" yields the standard SHA3-256 test
vector digest. -/
theorem sha3_abc_input_digest :
    hexdigest (sha3_256 (utf8Encode "abc")) =
      "3a985da74fe225b2045c172d6bd390bd855f086e3e9d525b46bfe24511431532" := by
  rw [sha3_256_abc]
  decide

/-- Claim C4 counterexample: for input "abc" the first printed line is the
label followed by the name, not the bare input string. -/
theorem firstLine_differs_from_input :
    (programOutput "abc").getD 0 "" ≠ "abc" := by
  decide

/-- Claim C4 (amended): the first printed line is the fixed label
"Nama sebelum di hash: ", the print separator space, and then exactly the
input string — the input appears unmodified as the suffix of the line. -/
theorem firstLine_label_then_input (nama : String) :
    (programOutput nama).getD 0 "" = printTwo "Nama sebelum di hash: " nama ∧
    ((programOutput nama).getD 0 "").data =
      ("Nama sebelum di hash:  " : String).data ++ nama.data :=
  ⟨line1_eq nama, line1_data nama⟩

/-- Claim C5 counterexample: for empty input the second printed line has
length 87 — the label plus the 64 digest characters — not 64. -/
theorem secondLine_not_sixtyfour_hex :
    ((programOutput "").getD 1 "").length ≠ 64 := by
  decide

/-- Claim C5 (amended): the second printed line is the fixed label
"Nama setelah di hash: ", the print separator space, and then a string of
exactly 64 lowercase hexadecimal characters rendering the 32-byte digest. -/
theorem secondLine_label_then_hex64 (nama : String) :
    ∃ hex : String,
      (programOutput nama).getD 1 "" = printTwo "Nama setelah di hash: " hex ∧
      hex = hexdigest (sha3_256 (utf8Encode nama)) ∧
      hex.length = 64 ∧
      ∀ c ∈ hex.data, isLowerHexDigit c := by
  refine ⟨hexdigest (sha3_256 (utf8Encode nama)), line2_eq nama, rfl, ?_, ?_⟩
  · rw [hexdigest_length, sha3_length]
  · exact hexdigest_chars _ (sha3_bytes_lt _)

/-- Claim C6: the input reader prompts with the fixed text
"Masukkan nama anda: " and returns the standard-input line with exactly the
trailing terminator stripped — leading and inner characters, whitespace
included, are preserved. -/
theorem inputReader_strips_only_terminator (s : String) (_h : '\n' ∉ s.data) :
    stripNewline (s ++ "\n") = s ∧
    (run (s ++ "\n")).getD 0 (Effect.shell "") =
      Effect.readLine "Masukkan nama anda: " s := by
  have hd : (s ++ "\n").data = s.data ++ ['\n'] := by
    rw [String.data_append]
  have hstrip : stripNewline (s ++ "\n") = s := by
    simp [stripNewline, hd, List.getLast?_concat, List.dropLast_concat, mk_data]
  refine ⟨hstrip, ?_⟩
  show Effect.readLine inputPrompt (stripNewline (s ++ "\n")) =
    Effect.readLine "Masukkan nama anda: " s
  rw [hstrip]
  rfl

/-- Witness for the input reader theorem on a line with leading and inner
whitespace, showing nothing besides the terminator is removed. -/
theorem inputReader_strips_only_terminator_witness :
    ('\n' ∉ (" a  b" : String).data) ∧
    (stripNewline (" a  b" ++ "\n") = " a  b" ∧
      (run (" a  b" ++ "\n")).getD 0 (Effect.shell "") =
        Effect.readLine "Masukkan nama anda: " " a  b") :=
  ⟨by decide, inputReader_strips_only_terminator " a  b" (by decide)⟩

/-- Claim C7: the encode-then-hash step is total — the digest of the UTF-8
encoding of any string has exactly 32 bytes, and the module body always
completes all of its steps, so the run ends normally. -/
theorem encode_then_hash_total (s : String) :
    (sha3_256 (utf8Encode s)).length = 32 ∧
    (run s).map stepOf =
      [Step.readInput, Step.clearTerminal, Step.hashName,
       Step.printOutput, Step.printOutput] :=
  ⟨sha3_length _, rfl⟩

/-- Claim C8: the module body performs, in order, exactly one input read,
one terminal clear, one hash computation, and then the printing of the name
line followed by the digest line — no step skipped, repeated or reordered. -/
theorem module_steps_once_in_order (s : String) :
    run s =
      [Effect.readLine inputPrompt (stripNewline s),
       Effect.shell "clear",
       Effect.hashed (sha3_256 (utf8Encode (stripNewline s))),
       Effect.printed (printTwo "Nama sebelum di hash: " (stripNewline s)),
       Effect.printed (printTwo "Nama setelah di hash: "
         (hexdigest (sha3_256 (utf8Encode (stripNewline s)))))] ∧
    ((run s).map stepOf).count Step.readInput = 1 ∧
    ((run s).map stepOf).count Step.clearTerminal = 1 ∧
    ((run s).map stepOf).count Step.hashName = 1 :=
  ⟨rfl, rfl, rfl, rfl⟩

/-- Claim C9: the printed lines are mutually consistent — the hex string on
the second line is the SHA3-256 digest of the UTF-8 encoding of exactly the
name shown on the first line, as both come from the same variable. -/
theorem printed_lines_consistent (nama : String) :
    ((programOutput nama).getD 1 "").data =
      ("Nama setelah di hash:  " : String).data ++
        (hexdigest (sha3_256 (utf8Encode
          (String.mk (((programOutput nama).getD 0 "").data.drop 23))))).data := by
  rw [line1_drop, mk_data, line2_data]

/-- Claim C10: the whole program is deterministic in its standard-input
line — identical input lines give identical effect traces and identical
complete printed output, labels included. -/
theorem program_deterministic (s₁ s₂ : String) (h : s₁ = s₂) :
    run s₁ = run s₂ ∧
    programOutput (stripNewline s₁) = programOutput (stripNewline s₂) := by
  rw [h]
  exact ⟨rfl, rfl⟩

/-- Witness for the program determinism theorem at the concrete input
line "abc". -/
theorem program_deterministic_witness :
    run "abc" = run "abc" ∧
    programOutput (stripNewline "abc") = programOutput (stripNewline "abc") :=
  program_deterministic "abc" "abc" rfl
